import Mathlib

set_option maxRecDepth 8000

/-!
Verification of the StainedSteel-Rust rendering core (`src/canvas.rs`,
`src/dashboard.rs`, `src/config.rs`) against its natural-language
specification.

Modelling conventions, applied uniformly:
* Rust `u8` pixel cells only ever hold 0 or 1 (`u8::from(on)`, `^= 1`,
  read via `> 0`), so a cell is embedded as `Bool`.
* `i32` values are embedded as `Int`; `i32` division and remainder
  truncate toward zero, so they are embedded as `Int.tdiv` / `Int.tmod`.
  `u8` / `usize` values are embedded as `Nat`; `u8` saturating addition
  is `satAdd8`.
* `f32` / `f64` values are embedded as exact rationals `ℚ`;
  `f32::round` (round half away from zero) agrees with Mathlib `round`
  (round half up) on the nonnegative values arising here.
* Rust `for x in a..b` loops over `i32` are folds over `intRange a b`.
* The Rust parameter name `on` is a Lean keyword, so it is rendered
  as `val` throughout.
-/

/-- Truncation of a rational toward zero, the semantics of Rust `as i32`
applied to an `f32` value (in the in-range cases exercised here). -/
def truncQ (q : ℚ) : Int := if q < 0 then ⌈q⌉ else ⌊q⌋

/-- Saturating addition on `u8` (`u8::saturating_add`). -/
def satAdd8 (a b : Nat) : Nat := min (a + b) 255

/-- Clamp on `i32` (`i32::clamp(lo, hi)`). -/
def clampI (v lo hi : Int) : Int := min (max v lo) hi

/-- Clamp on rationals (`f32::clamp(lo, hi)`). -/
def clampQ (v lo hi : ℚ) : ℚ := min (max v lo) hi

/-- The half-open integer range `a..b` of a Rust `for` loop, as a list. -/
def intRange (a b : Int) : List Int := (List.range (b - a).toNat).map (fun i => a + i)

/-- Fold helper: a fold whose step fixes the initial accumulator is the
identity. -/
theorem foldl_fixed {α β : Type} (f : β → α → β) (l : List α) (b : β)
    (h : ∀ x ∈ l, f b x = b) : l.foldl f b = b := by
  induction l with
  | nil => rfl
  | cons a t ih =>
    rw [List.foldl_cons, h a (List.mem_cons_self a t)]
    exact ih (fun x hx => h x (List.mem_cons_of_mem a hx))

/-! ## Framebuffer (`src/canvas.rs`, `struct Canvas`) -/

/-- `Canvas { width, height, pixels }` from `src/canvas.rs`. `pixels` is the
row-major cell vector (`pixels[y * width + x]`), one 1-bit cell per pixel. -/
structure Canvas where
  width : Nat
  height : Nat
  pixels : List Bool
  deriving DecidableEq

/-- `Canvas::new`: a `width*height` vector of zeroed cells. -/
def Canvas.new (width height : Nat) : Canvas :=
  ⟨width, height, List.replicate (width * height) false⟩

/-- `Canvas::clear`: fill every existing cell with `val`. -/
def Canvas.clear (c : Canvas) (val : Bool) : Canvas :=
  { c with pixels := c.pixels.map (fun _ => val) }

/-- `Canvas::set`: write a cell, silently dropping out-of-bounds coordinates.
The in-range index `uy * width + ux` is below `pixels.length` whenever the
length invariant `length = width * height` holds, so `List.set` embeds the
Rust index assignment. -/
def Canvas.set (c : Canvas) (x y : Int) (val : Bool) : Canvas :=
  if x < 0 ∨ y < 0 then c
  else
    let ux := x.toNat
    let uy := y.toNat
    if ux ≥ c.width ∨ uy ≥ c.height then c
    else { c with pixels := c.pixels.set (uy * c.width + ux) val }

/-- `Canvas::invert`: flip a cell (`pixels[idx] ^= 1` on a 0/1 cell),
silently dropping out-of-bounds coordinates. -/
def Canvas.invert (c : Canvas) (x y : Int) : Canvas :=
  if x < 0 ∨ y < 0 then c
  else
    let ux := x.toNat
    let uy := y.toNat
    if ux ≥ c.width ∨ uy ≥ c.height then c
    else
      let idx := uy * c.width + ux
      { c with pixels := c.pixels.set idx (!(c.pixels.getD idx false)) }

/-- `Canvas::rect_fill`: `for py in y..(y+h) { for px in x..(x+w) { set } }`. -/
def Canvas.rect_fill (c : Canvas) (x y w h : Int) (val : Bool) : Canvas :=
  (intRange y (y + h)).foldl
    (fun acc py => (intRange x (x + w)).foldl (fun acc2 px => acc2.set px py val) acc) c

/-- `Canvas::rect_border`: the two edge loops of the source, in order. -/
def Canvas.rect_border (c : Canvas) (x y w h : Int) (val : Bool) : Canvas :=
  let c1 := (intRange x (x + w)).foldl
    (fun acc px => (acc.set px y val).set px (y + h - 1) val) c
  (intRange y (y + h)).foldl
    (fun acc py => (acc.set x py val).set (x + w - 1) py val) c1

/-- `Canvas::rect_fill_invert`: the nested loops of `rect_fill` with `invert`. -/
def Canvas.rect_fill_invert (c : Canvas) (x y w h : Int) : Canvas :=
  (intRange y (y + h)).foldl
    (fun acc py => (intRange x (x + w)).foldl (fun acc2 px => acc2.invert px py) acc) c

/-- Loop body of the Bresenham loop in `Canvas::line` / `Canvas::line_invert`:
plot, stop at the endpoint, otherwise step `x` when `2*err ≥ dy` and step `y`
when `2*err ≤ dx`. `fuel` only bounds the recursion: the callers pass
`|dx| + |dy| + 1`, which strictly exceeds the `max(|dx|, |dy|) + 1`
iterations the Bresenham loop performs, so the fuel-exhausted branch is
never taken. -/
def bresenhamLoop (plot : Canvas → Int → Int → Canvas) :
    Nat → Canvas → Int → Int → Int → Int → Int → Int → Int → Int → Int → Canvas
  | 0, c, _, _, _, _, _, _, _, _, _ => c
  | fuel + 1, c, x0, y0, x1, y1, sx, sy, dx, dy, err =>
    let c := plot c x0 y0
    if x0 = x1 ∧ y0 = y1 then c
    else
      let e2 := 2 * err
      let err2 := if e2 ≥ dy then err + dy else err
      let x2 := if e2 ≥ dy then x0 + sx else x0
      let err3 := if e2 ≤ dx then err2 + dx else err2
      let y2 := if e2 ≤ dx then y0 + sy else y0
      bresenhamLoop plot fuel c x2 y2 x1 y1 sx sy dx dy err3

/-- Shared setup of `Canvas::line` / `Canvas::line_invert`. -/
def bresenham (plot : Canvas → Int → Int → Canvas) (c : Canvas) (x0 y0 x1 y1 : Int) : Canvas :=
  let dx := |x1 - x0|
  let sx : Int := if x0 < x1 then 1 else -1
  let dy := -|y1 - y0|
  let sy : Int := if y0 < y1 then 1 else -1
  let err := dx + dy
  bresenhamLoop plot (dx.toNat + (-dy).toNat + 1) c x0 y0 x1 y1 sx sy dx dy err

/-- `Canvas::line`. -/
def Canvas.line (c : Canvas) (x0 y0 x1 y1 : Int) (val : Bool) : Canvas :=
  bresenham (fun c2 x y => c2.set x y val) c x0 y0 x1 y1

/-- `Canvas::line_invert`. -/
def Canvas.line_invert (c : Canvas) (x0 y0 x1 y1 : Int) : Canvas :=
  bresenham (fun c2 x y => c2.invert x y) c x0 y0 x1 y1

/-! ## Bit packing (`Canvas::to_packed_bytes`) -/

/-- Value of up to 8 bits packed most-significant-bit-first into one byte,
starting at bit position `i` from the top: bit `i + k` of the byte is
`bits[k]`. This is the `current |= 1 << (7 - bit_index)` accumulation of
`to_packed_bytes`, with the OR of distinct powers written as a sum. -/
def byteAcc : List Bool → Nat → Nat
  | [], _ => 0
  | b :: rest, i => (cond b (2 ^ (7 - i)) 0) + byteAcc rest (i + 1)

/-- Fuel-indexed byte-chunking loop: one byte per 8 pixels. The fuel is only
a structural-recursion bound; `packPixels` passes the list length, which
dominates the number of 8-pixel chunks, so the fuel never runs out. -/
def packAux : Nat → List Bool → List Nat
  | 0, _ => []
  | fuel + 1, l => if l.isEmpty then [] else byteAcc (l.take 8) 0 :: packAux fuel (l.drop 8)

/-- The byte stream of `Canvas::to_packed_bytes`: the source loops
`for y { for x { pixels[y*width+x] } }`, which reads `pixels` exactly in
storage order, emitting one byte per 8 pixels and, after the loop, the
zero-padded final partial byte. -/
def packPixels (l : List Bool) : List Nat := packAux l.length l

/-- `Canvas::to_packed_bytes`. -/
def Canvas.to_packed_bytes (c : Canvas) : List Nat := packPixels c.pixels

/-- MSB-first decoding of bit `idx` from a packed byte stream: bit
`7 - idx % 8` of byte `idx / 8`. -/
def decodePackedBit (bytes : List Nat) (idx : Nat) : Bool :=
  Nat.testBit (bytes.getD (idx / 8) 0) (7 - idx % 8)

theorem byteAcc_lt (bits : List Bool) (i : Nat) (h : i + bits.length ≤ 8) :
    byteAcc bits i < 2 ^ (8 - i) := by
  induction bits generalizing i with
  | nil =>
    simp only [byteAcc]
    exact Nat.two_pow_pos _
  | cons b rest ih =>
    have hlen : i + rest.length + 1 ≤ 8 := by
      simp only [List.length_cons] at h
      omega
    have hrest : byteAcc rest (i + 1) < 2 ^ (8 - (i + 1)) := ih (i + 1) (by omega)
    have hi : i ≤ 7 := by omega
    have hsplit : 8 - i = (7 - i) + 1 := by omega
    have h2 : (8 : Nat) - (i + 1) = 7 - i := by omega
    rw [h2] at hrest
    simp only [byteAcc]
    rw [hsplit, pow_succ]
    cases b <;> simp only [cond_true, cond_false] <;> omega

theorem byteAcc_testBit (bits : List Bool) (i k : Nat) (hk : k < bits.length)
    (hlen : i + bits.length ≤ 8) :
    Nat.testBit (byteAcc bits i) (7 - (i + k)) = bits.getD k false := by
  induction bits generalizing i k with
  | nil => simp at hk
  | cons b rest ih =>
    have hlen2 : i + rest.length + 1 ≤ 8 := by
      simp only [List.length_cons] at hlen
      omega
    have hrest : byteAcc rest (i + 1) < 2 ^ (7 - i) := by
      have h8 := byteAcc_lt rest (i + 1) (by omega)
      have h2 : (8 : Nat) - (i + 1) = 7 - i := by omega
      rwa [h2] at h8
    cases k with
    | zero =>
      simp only [byteAcc, Nat.add_zero, List.getD_cons_zero]
      cases b with
      | true =>
        simp only [cond_true]
        rw [Nat.testBit_two_pow_add_eq, Nat.testBit_lt_two_pow hrest]
        rfl
      | false =>
        simp only [cond_false, Nat.zero_add]
        exact Nat.testBit_lt_two_pow hrest
    | succ k2 =>
      have hk2 : k2 < rest.length := by simpa using hk
      have hlt : 7 - (i + (k2 + 1)) < 7 - i := by omega
      have heq : 7 - ((i + 1) + k2) = 7 - (i + (k2 + 1)) := by omega
      have hrec := ih (i + 1) k2 hk2 (by omega)
      rw [heq] at hrec
      simp only [byteAcc, List.getD_cons_succ]
      cases b with
      | true =>
        simp only [cond_true]
        rw [Nat.testBit_two_pow_add_gt hlt]
        exact hrec
      | false =>
        simp only [cond_false, Nat.zero_add]
        exact hrec

theorem byteAcc_testBit_low (bits : List Bool) (i p : Nat)
    (hlen : i + bits.length ≤ 8) (hp : p + i + bits.length ≤ 7) :
    Nat.testBit (byteAcc bits i) p = false := by
  induction bits generalizing i with
  | nil => simp [byteAcc]
  | cons b rest ih =>
    have hlen2 : i + rest.length + 1 ≤ 8 := by
      simp only [List.length_cons] at hlen
      omega
    have hp2 : p + i + rest.length + 1 ≤ 7 := by
      simp only [List.length_cons] at hp
      omega
    have hplt : p < 7 - i := by omega
    have hrec := ih (i + 1) (by omega) (by omega)
    simp only [byteAcc]
    cases b with
    | true =>
      simp only [cond_true]
      rw [Nat.testBit_two_pow_add_gt hplt]
      exact hrec
    | false =>
      simp only [cond_false, Nat.zero_add]
      exact hrec

theorem packAux_length : ∀ (n : Nat) (l : List Bool), l.length ≤ n →
    (packAux n l).length = (l.length + 7) / 8 := by
  intro n
  induction n with
  | zero =>
    intro l hl
    have h0 : l = [] := List.eq_nil_of_length_eq_zero (by omega)
    subst h0
    rfl
  | succ n ih =>
    intro l hl
    by_cases hne : l.isEmpty
    · rw [packAux, if_pos hne]
      simp only [List.isEmpty_iff] at hne
      simp [hne]
    · rw [packAux, if_neg hne]
      simp only [List.isEmpty_iff] at hne
      have hpos : 0 < l.length := List.length_pos.mpr hne
      have hrec := ih (l.drop 8) (by simp only [List.length_drop]; omega)
      simp only [List.length_cons, hrec, List.length_drop]
      omega

theorem packPixels_length (l : List Bool) :
    (packPixels l).length = (l.length + 7) / 8 :=
  packAux_length l.length l le_rfl

theorem packAux_decode : ∀ (n : Nat) (l : List Bool), l.length ≤ n →
    ∀ k, k < l.length → decodePackedBit (packAux n l) k = l.getD k false := by
  intro n
  induction n with
  | zero => intro l hl k hk; omega
  | succ n ih =>
    intro l hl k hk
    have hne : ¬l.isEmpty := by
      simp only [List.isEmpty_iff]
      intro h0
      subst h0
      simp at hk
    rw [packAux, if_neg hne]
    by_cases h8 : k < 8
    · have hdiv : k / 8 = 0 := Nat.div_eq_of_lt h8
      have hmod : k % 8 = k := Nat.mod_eq_of_lt h8
      simp only [decodePackedBit, hdiv, hmod, List.getD_cons_zero]
      have hklen : k < (l.take 8).length := by
        simp only [List.length_take]
        omega
      have hbit := byteAcc_testBit (l.take 8) 0 k hklen
        (by simp only [List.length_take]; omega)
      simp only [Nat.zero_add] at hbit
      rw [hbit]
      simp only [List.getD_eq_getElem?_getD, List.getElem?_take_of_lt h8]
    · have hk8 : 8 ≤ k := by omega
      have hdiv : k / 8 = (k - 8) / 8 + 1 := by omega
      have hmod : (k - 8) % 8 = k % 8 := by omega
      simp only [decodePackedBit, hdiv, List.getD_cons_succ]
      have hrec := ih (l.drop 8) (by simp only [List.length_drop]; omega) (k - 8)
        (by simp only [List.length_drop]; omega)
      simp only [decodePackedBit, hmod] at hrec
      rw [hrec]
      simp only [List.getD_eq_getElem?_getD, List.getElem?_drop]
      congr 2
      omega

theorem packAux_trailing : ∀ (n : Nat) (l : List Bool), l.length ≤ n →
    ∀ k, l.length ≤ k → k < 8 * (packAux n l).length →
      decodePackedBit (packAux n l) k = false := by
  intro n
  induction n with
  | zero =>
    intro l hl k _ hk2
    simp [packAux] at hk2
  | succ n ih =>
    intro l hl k hk hk2
    by_cases hne : l.isEmpty
    · rw [packAux, if_pos hne] at hk2
      simp at hk2
    · rw [packAux, if_neg hne] at hk2 ⊢
      simp only [List.isEmpty_iff] at hne
      have hpos : 0 < l.length := List.length_pos.mpr hne
      simp only [List.length_cons] at hk2
      by_cases h8 : k < 8
      · have hlen8 : l.length ≤ 8 := by omega
        have htake : l.take 8 = l := List.take_of_length_le hlen8
        have hdiv : k / 8 = 0 := Nat.div_eq_of_lt h8
        have hmod : k % 8 = k := Nat.mod_eq_of_lt h8
        simp only [decodePackedBit, hdiv, hmod, List.getD_cons_zero, htake]
        exact byteAcc_testBit_low l 0 (7 - k) (by omega) (by omega)
      · have hk8 : 8 ≤ k := by omega
        have hdiv : k / 8 = (k - 8) / 8 + 1 := by omega
        have hmod : (k - 8) % 8 = k % 8 := by omega
        simp only [decodePackedBit, hdiv, List.getD_cons_succ]
        have hlendrop : (l.drop 8).length ≤ n := by
          simp only [List.length_drop]
          omega
        have hkdrop : (l.drop 8).length ≤ k - 8 := by
          simp only [List.length_drop]
          omega
        have hbound : k - 8 < 8 * (packAux n (l.drop 8)).length := by omega
        have hrec := ih (l.drop 8) hlendrop (k - 8) hkdrop hbound
        simpa only [decodePackedBit, hmod] using hrec

/-- Full packing specification of a canvas: output length is
`ceil(width*height / 8)`; bit `y*width + x` of the MSB-first stream decodes
to the pixel at `(x, y)`; all trailing padding bits are zero. -/
def packSpec (c : Canvas) : Prop :=
  c.to_packed_bytes.length = (c.width * c.height + 7) / 8 ∧
  (∀ x y : Nat, x < c.width → y < c.height →
    decodePackedBit c.to_packed_bytes (y * c.width + x) =
      c.pixels.getD (y * c.width + x) false) ∧
  (∀ k : Nat, c.width * c.height ≤ k → k < 8 * c.to_packed_bytes.length →
    decodePackedBit c.to_packed_bytes k = false)

/-- C1: for every framebuffer of size `w×h` (with the length invariant
`pixels.length = w*h` maintained by every `Canvas` operation),
`to_packed_bytes` returns exactly `ceil(w*h/8)` bytes, serialized row-major
and MSB-first - bit `y*w + x` of the packed stream decodes to the pixel at
`(x, y)` - and all unused trailing bits of the final partial byte are zero. -/
theorem canvas_pack_roundtrip (c : Canvas)
    (hlen : c.pixels.length = c.width * c.height) : packSpec c := by
  refine ⟨?_, ?_, ?_⟩
  · rw [Canvas.to_packed_bytes, packPixels_length, hlen]
  · intro x y hx hy
    have hidx : y * c.width + x < c.width * c.height := by
      calc y * c.width + x < y * c.width + c.width := by omega
        _ = (y + 1) * c.width := by ring
        _ ≤ c.height * c.width := Nat.mul_le_mul_right _ (by omega)
        _ = c.width * c.height := Nat.mul_comm _ _
    exact packAux_decode c.pixels.length c.pixels le_rfl _ (by omega)
  · intro k hk hk2
    exact packAux_trailing c.pixels.length c.pixels le_rfl k (by omega) hk2

theorem canvas_pack_roundtrip_witness :
    ((((Canvas.new 3 2).set 1 0 true).set 2 1 true).pixels.length =
      (((Canvas.new 3 2).set 1 0 true).set 2 1 true).width *
        (((Canvas.new 3 2).set 1 0 true).set 2 1 true).height) ∧
    packSpec (((Canvas.new 3 2).set 1 0 true).set 2 1 true) :=
  ⟨by decide, canvas_pack_roundtrip _ (by decide)⟩

/-- C2: writes at any coordinate with `x < 0`, `y < 0`, `x ≥ width` or
`y ≥ height` leave the framebuffer entirely unchanged (`set` with either
value, and `invert`), and consequently a shape primitive all of whose
target pixels are out of bounds draws nothing - its out-of-bounds pixels
are silently dropped. -/
theorem canvas_oob_writes_noop (c : Canvas) (x y : Int)
    (h : x < 0 ∨ y < 0 ∨ (c.width : Int) ≤ x ∨ (c.height : Int) ≤ y) :
    (∀ val, c.set x y val = c) ∧ c.invert x y = c ∧
    (∀ (rx ry rw rh : Int) (val : Bool),
      (∀ px ∈ intRange rx (rx + rw), ∀ py ∈ intRange ry (ry + rh),
        px < 0 ∨ py < 0 ∨ (c.width : Int) ≤ px ∨ (c.height : Int) ≤ py) →
      c.rect_fill rx ry rw rh val = c) := by
  have hset : ∀ (c2 : Canvas) (px py : Int),
      (px < 0 ∨ py < 0 ∨ (c2.width : Int) ≤ px ∨ (c2.height : Int) ≤ py) →
      ∀ val, c2.set px py val = c2 := by
    intro c2 px py hpq val
    rw [Canvas.set]
    split
    · rfl
    · rename_i hneg
      rw [if_pos]
      push_neg at hneg
      rcases hpq with h1 | h1 | h1 | h1
      · omega
      · omega
      · left; omega
      · right; omega
  refine ⟨hset c x y h, ?_, ?_⟩
  · rw [Canvas.invert]
    split
    · rfl
    · rename_i hneg
      rw [if_pos]
      push_neg at hneg
      rcases h with h1 | h1 | h1 | h1
      · omega
      · omega
      · left; omega
      · right; omega
  · intro rx ry rw rh val hall
    rw [Canvas.rect_fill]
    refine foldl_fixed _ _ _ ?_
    intro py hpy
    refine foldl_fixed _ _ _ ?_
    intro px hpx
    exact hset c px py (hall px hpx py hpy) val

theorem canvas_oob_writes_noop_witness :
    ((-1 : Int) < 0 ∨ (1 : Int) < 0 ∨ ((Canvas.new 4 4).width : Int) ≤ -1 ∨
        ((Canvas.new 4 4).height : Int) ≤ 1) ∧
    ((∀ val, (Canvas.new 4 4).set (-1) 1 val = Canvas.new 4 4) ∧
      (Canvas.new 4 4).invert (-1) 1 = Canvas.new 4 4 ∧
      (∀ (rx ry rw rh : Int) (val : Bool),
        (∀ px ∈ intRange rx (rx + rw), ∀ py ∈ intRange ry (ry + rh),
          px < 0 ∨ py < 0 ∨ ((Canvas.new 4 4).width : Int) ≤ px ∨
            ((Canvas.new 4 4).height : Int) ≤ py) →
        (Canvas.new 4 4).rect_fill rx ry rw rh val = Canvas.new 4 4)) :=
  ⟨by left; decide, canvas_oob_writes_noop (Canvas.new 4 4) (-1) 1 (by left; decide)⟩

/-! ## Glyph renderer (`src/canvas.rs`, `tiny_glyph` and the text blitters) -/

/-- Glyph table `tiny_glyph` from `src/canvas.rs`: a 4-wide by 5-tall bitmap
per character, row bit `N` = column `N` (bit 0 leftmost), after ASCII
upper-casing; unmapped characters yield `none`. -/
def tiny_glyph (ch : Char) : Option (List Nat) :=
  let ch := ch.toUpper
  if ch = '0' then some [0b0110, 0b1001, 0b1001, 0b1001, 0b0110]
  else if ch = '1' then some [0b0010, 0b0011, 0b0010, 0b0010, 0b0111]
  else if ch = '2' then some [0b0110, 0b1000, 0b0100, 0b0010, 0b1111]
  else if ch = '3' then some [0b0110, 0b1000, 0b0110, 0b1000, 0b0110]
  else if ch = '4' then some [0b1001, 0b1001, 0b1111, 0b1000, 0b1000]
  else if ch = '5' then some [0b1111, 0b0001, 0b0111, 0b1000, 0b0111]
  else if ch = '6' then some [0b0110, 0b0001, 0b0111, 0b1001, 0b0110]
  else if ch = '7' then some [0b1111, 0b1000, 0b0100, 0b0010, 0b0010]
  else if ch = '8' then some [0b0110, 0b1001, 0b0110, 0b1001, 0b0110]
  else if ch = '9' then some [0b0110, 0b1001, 0b1110, 0b1000, 0b0110]
  else if ch = 'A' then some [0b0110, 0b1001, 0b1111, 0b1001, 0b1001]
  else if ch = 'B' then some [0b0111, 0b1001, 0b0111, 0b1001, 0b0111]
  else if ch = 'C' then some [0b0110, 0b0001, 0b0001, 0b0001, 0b0110]
  else if ch = 'D' then some [0b0111, 0b1001, 0b1001, 0b1001, 0b0111]
  else if ch = 'E' then some [0b1111, 0b0001, 0b0111, 0b0001, 0b1111]
  else if ch = 'F' then some [0b1111, 0b0001, 0b0111, 0b0001, 0b0001]
  else if ch = 'G' then some [0b0110, 0b0001, 0b1101, 0b1001, 0b0110]
  else if ch = 'H' then some [0b1001, 0b1001, 0b1111, 0b1001, 0b1001]
  else if ch = 'I' then some [0b0111, 0b0010, 0b0010, 0b0010, 0b0111]
  else if ch = 'J' then some [0b1100, 0b1000, 0b1000, 0b1001, 0b0110]
  else if ch = 'K' then some [0b1001, 0b0101, 0b0011, 0b0101, 0b1001]
  else if ch = 'L' then some [0b0001, 0b0001, 0b0001, 0b0001, 0b1111]
  else if ch = 'M' then some [0b1001, 0b1111, 0b0101, 0b1001, 0b1001]
  else if ch = 'N' then some [0b1001, 0b1011, 0b1101, 0b1001, 0b1001]
  else if ch = 'O' then some [0b0110, 0b1001, 0b1001, 0b1001, 0b0110]
  else if ch = 'P' then some [0b0111, 0b1001, 0b0111, 0b0001, 0b0001]
  else if ch = 'Q' then some [0b0110, 0b1001, 0b1001, 0b0101, 0b1110]
  else if ch = 'R' then some [0b0111, 0b1001, 0b0111, 0b0101, 0b1001]
  else if ch = 'S' then some [0b0110, 0b0001, 0b0110, 0b1000, 0b0110]
  else if ch = 'T' then some [0b1111, 0b0010, 0b0010, 0b0010, 0b0010]
  else if ch = 'U' then some [0b1001, 0b1001, 0b1001, 0b1001, 0b0110]
  else if ch = 'V' then some [0b1001, 0b1001, 0b1001, 0b0110, 0b0110]
  else if ch = 'W' then some [0b1001, 0b1001, 0b0101, 0b1111, 0b1001]
  else if ch = 'X' then some [0b1001, 0b1001, 0b0110, 0b1001, 0b1001]
  else if ch = 'Y' then some [0b1001, 0b1001, 0b0110, 0b0010, 0b0010]
  else if ch = 'Z' then some [0b1111, 0b1000, 0b0100, 0b0010, 0b1111]
  else if ch = '.' then some [0b0000, 0b0000, 0b0000, 0b0000, 0b0010]
  else if ch = '/' then some [0b1000, 0b0100, 0b0110, 0b0010, 0b0001]
  else if ch = ':' then some [0b0000, 0b0010, 0b0000, 0b0010, 0b0000]
  else if ch = '-' then some [0b0000, 0b0000, 0b1111, 0b0000, 0b0000]
  else if ch = '%' then some [0b1001, 0b0100, 0b0110, 0b0010, 0b1001]
  else if ch = ' ' then some [0b0000, 0b0000, 0b0000, 0b0000, 0b0000]
  else none

/-- Shared glyph blit loop of `draw_text_scaled` / `draw_text_scaled_invert`:
each set bit of the 4x5 glyph expands to a `s`x`s` block plotted through
`plot`. -/
def drawGlyphScaledWith (plot : Canvas → Int → Int → Canvas) (c : Canvas)
    (cursor_x y : Int) (glyph : List Nat) (s : Int) : Canvas :=
  glyph.enum.foldl (fun acc rowBits =>
    (intRange 0 4).foldl (fun acc2 col =>
      if Nat.testBit rowBits.2 col.toNat then
        (intRange 0 s).foldl (fun acc3 dy =>
          (intRange 0 s).foldl (fun acc4 dx =>
            plot acc4 (cursor_x + col * s + dx) (y + (rowBits.1 : Int) * s + dy)) acc3) acc2
      else acc2) acc) c

/-- `Canvas::draw_text_scaled`: 5*s advance per character, skipping unmapped
characters. -/
def Canvas.draw_text_scaled (c : Canvas) (x y : Int) (text : List Char) (scale : Int) : Canvas :=
  let s := max scale 1
  (text.foldl (fun (p : Canvas × Int) ch =>
    let c2 := match tiny_glyph ch with
      | some glyph => drawGlyphScaledWith (fun cv px py => cv.set px py true) p.1 p.2 y glyph s
      | none => p.1
    (c2, p.2 + 5 * s)) (c, x)).1

/-- `Canvas::draw_text_scaled_invert`. -/
def Canvas.draw_text_scaled_invert (c : Canvas) (x y : Int) (text : List Char) (scale : Int) : Canvas :=
  let s := max scale 1
  (text.foldl (fun (p : Canvas × Int) ch =>
    let c2 := match tiny_glyph ch with
      | some glyph => drawGlyphScaledWith (fun cv px py => cv.invert px py) p.1 p.2 y glyph s
      | none => p.1
    (c2, p.2 + 5 * s)) (c, x)).1

/-- `Canvas::draw_text_tiny`: scale-1 convenience wrapper. -/
def Canvas.draw_text_tiny (c : Canvas) (x y : Int) (text : List Char) : Canvas :=
  c.draw_text_scaled x y text 1

/-- Modelled from the spec: `Canvas::draw_char_scaled_invert_clipped` is
called by `draw_volume` in `src/dashboard.rs` but its definition is not in
the provided `src/canvas.rs`; per the spec (§4.2) the clipped variant is the
inverting single-glyph blit that "additionally intersects every plotted
pixel against a caller-supplied clip rectangle". -/
def Canvas.draw_char_scaled_invert_clipped (c : Canvas) (x y : Int) (ch : Char)
    (scale clip_x clip_y clip_w clip_h : Int) : Canvas :=
  let s := max scale 1
  match tiny_glyph ch with
  | some glyph =>
    drawGlyphScaledWith
      (fun cv px py =>
        if clip_x ≤ px ∧ px < clip_x + clip_w ∧ clip_y ≤ py ∧ py < clip_y + clip_h then
          cv.invert px py
        else cv) c x y glyph s
  | none => c

/-! ## Configuration and metrics snapshot (`src/config.rs`, `src/metrics.rs`) -/

/-- `Position { x, y, w, h }` from `src/config.rs`. -/
structure Position where
  x : Int
  y : Int
  w : Int
  h : Int
  deriving DecidableEq

/-- `BarConfig { direction, border }` from `src/config.rs`. -/
structure BarConfig where
  direction : String
  border : Bool
  deriving DecidableEq

/-- `GraphConfig { history }` from `src/config.rs`. -/
structure GraphConfig where
  history : Nat
  deriving DecidableEq

/-- `Widget` from `src/config.rs` (the fields consumed by the renderer). -/
structure Widget where
  kind : String
  enabled : Bool
  refresh_rate_ms : Option Nat
  position : Position
  interface : Option String
  show_icon : Bool
  bar : Option BarConfig
  graph : Option GraphConfig
  deriving DecidableEq

/-- `Display { width, height, background }` from `src/config.rs`. -/
structure Display where
  width : Nat
  height : Nat
  background : Nat
  deriving DecidableEq

/-- `DashboardConfig` from `src/config.rs`. -/
structure DashboardConfig where
  config_name : String
  refresh_rate_ms : Nat
  display : Display
  widgets : List Widget
  deriving DecidableEq

/-- `MetricsSample` from `src/metrics.rs`: the per-tick snapshot consumed by
the renderer. -/
structure MetricsSample where
  cpu_percent : ℚ
  mem_percent : ℚ
  volume_percent : ℚ
  audio_level : ℚ
  audio_waveform : List ℚ
  net_up_bps : ℚ
  net_down_bps : ℚ
  caps_lock : Bool
  num_lock : Bool
  scroll_lock : Bool
  deriving DecidableEq

/-! ## Dashboard renderer state (`src/dashboard.rs`, `struct DashboardRenderer`)

The Rust struct holds `boot_started: Instant` and
`boot_duration: Duration::from_millis(2100)`; wall-clock time has no shallow
embedding, so `render` below instead receives the elapsed milliseconds since
startup as an explicit parameter and the boot duration is the constant
`bootDurationMs`. All other fields are embedded directly. -/

/-- Renderer state of `struct DashboardRenderer` (minus the two wall-clock
fields, see above). -/
structure DashboardRenderer where
  canvas : Canvas
  width : Nat
  height : Nat
  mem_history : List ℚ
  volume_display : Option Int
  volume_target : Int
  vol_step_from : Int
  vol_step_to : Int
  vol_anim_step : Nat
  vol_anim_len : Nat
  vol_anim_speed : Nat
  prev_caps_lock : Option Bool
  caps_anim_step : Nat
  caps_anim_len : Nat
  caps_anim_from : Bool
  caps_anim_to : Bool
  prev_num_lock : Option Bool
  num_anim_step : Nat
  num_anim_len : Nat
  num_anim_from : Bool
  num_anim_to : Bool
  prev_scroll_lock : Option Bool
  scroll_anim_step : Nat
  scroll_anim_len : Nat
  scroll_anim_from : Bool
  scroll_anim_to : Bool
  deriving DecidableEq

/-- `Duration::from_millis(2100)`, the fixed boot duration, in milliseconds. -/
def bootDurationMs : ℚ := 2100

/-- `DashboardRenderer::new`. -/
def DashboardRenderer.new (width height : Nat) : DashboardRenderer where
  canvas := Canvas.new width height
  width := width
  height := height
  mem_history := []
  volume_display := none
  volume_target := 0
  vol_step_from := 0
  vol_step_to := 0
  vol_anim_step := 0
  vol_anim_len := 10
  vol_anim_speed := 1
  prev_caps_lock := none
  caps_anim_step := 0
  caps_anim_len := 6
  caps_anim_from := false
  caps_anim_to := false
  prev_num_lock := none
  num_anim_step := 0
  num_anim_len := 6
  num_anim_from := false
  num_anim_to := false
  prev_scroll_lock := none
  scroll_anim_step := 0
  scroll_anim_len := 6
  scroll_anim_from := false
  scroll_anim_to := false

/-! ## Volume stepped-counter state machine (`src/dashboard.rs`) -/

/-- Fuel-indexed decimal digit loop; the fuel is a structural-recursion
bound only (a number always has fewer digits than its own successor), so
`natDigitChars` below never exhausts it. -/
def natDigitAux : Nat → Nat → List Char
  | 0, n => [Char.ofNat (48 + n)]
  | fuel + 1, n =>
    if n < 10 then [Char.ofNat (48 + n)]
    else natDigitAux fuel (n / 10) ++ [Char.ofNat (48 + n % 10)]

/-- Decimal digit characters of a natural number. -/
def natDigitChars (n : Nat) : List Char := natDigitAux n n

/-- Decimal representation of an `i32`, as `format!` prints it. -/
def intChars (v : Int) : List Char :=
  if v < 0 then '-' :: natDigitChars (-v).toNat else natDigitChars v.toNat

/-- Right-alignment to width 3 with spaces (`format!("{:>3}", ..)`). -/
def padLeft3 (l : List Char) : List Char := List.replicate (3 - l.length) ' ' ++ l

/-- `DashboardRenderer::volume_digits`: the three characters of
`format!("{:>3}", value.clamp(0, 100))`. -/
def volume_digits (value : Int) : List Char := padLeft3 (intChars (clampI value 0 100))

/-- `DashboardRenderer::update_volume_animation`. -/
def DashboardRenderer.update_volume_animation (s : DashboardRenderer) (now : Int) :
    DashboardRenderer :=
  match s.volume_display with
  | none =>
    { s with volume_display := some now, volume_target := now,
             vol_step_from := now, vol_step_to := now, vol_anim_step := s.vol_anim_len }
  | some _ =>
    let s := { s with volume_target := now }
    if s.vol_anim_step ≥ s.vol_anim_len ∧ s.vol_step_from = s.vol_step_to then
      let display := s.volume_display.getD now
      if display ≠ s.volume_target then
        { s with vol_step_from := display,
                 vol_step_to := display + (if s.volume_target > display then 1 else -1),
                 vol_anim_step := 0 }
      else s
    else s

/-- Body of the `for _ in 0..speed` loop of
`DashboardRenderer::advance_volume_animation`. -/
def DashboardRenderer.advanceVolBody (s : DashboardRenderer) : DashboardRenderer :=
  if s.vol_step_from = s.vol_step_to ∨ s.vol_anim_step ≥ s.vol_anim_len then
    let display := s.volume_display.getD s.volume_target
    if display ≠ s.volume_target then
      { s with vol_step_from := display,
               vol_step_to := display + (if s.volume_target > display then 1 else -1),
               vol_anim_step := 0 }
    else s
  else
    let step := satAdd8 s.vol_anim_step 1
    if step ≥ s.vol_anim_len then
      if s.vol_step_to ≠ s.volume_target then
        { s with vol_anim_step := 0,
                 volume_display := some s.vol_step_to,
                 vol_step_from := s.vol_step_to,
                 vol_step_to := s.vol_step_to +
                   (if s.volume_target > s.vol_step_to then 1 else -1) }
      else
        { s with vol_anim_step := step,
                 volume_display := some s.vol_step_to,
                 vol_step_from := s.vol_step_to }
    else { s with vol_anim_step := step }

/-- Clamp on `Nat` (`u8::clamp`). -/
def clampN (v lo hi : Nat) : Nat := min (max v lo) hi

/-- Speed computation at the head of
`DashboardRenderer::advance_volume_animation`: base speed plus a
distance-dependent bonus, clamped to `[1, 3]`. -/
def DashboardRenderer.volSpeed (s : DashboardRenderer) : Nat :=
  let display := s.volume_display.getD s.volume_target
  let distance := (s.volume_target - display).natAbs
  let distance_bonus := if distance ≤ 2 then 0 else if distance ≤ 8 then 1 else 2
  clampN (satAdd8 s.vol_anim_speed distance_bonus) 1 3

/-- `DashboardRenderer::advance_volume_animation`: run the loop body `speed`
times. -/
def DashboardRenderer.advance_volume_animation (s : DashboardRenderer) : DashboardRenderer :=
  DashboardRenderer.advanceVolBody^[s.volSpeed] s

/-- Volume-state effect of one `draw_volume` call: the source calls
`update_volume_animation(current)` on entry and `advance_volume_animation()`
at exit; the drawing in between never touches the volume state. -/
def DashboardRenderer.volTick (now : Int) (s : DashboardRenderer) : DashboardRenderer :=
  (s.update_volume_animation now).advance_volume_animation

/-! ## Lock-key toggle state machines (`src/dashboard.rs`) -/

/-- `DashboardRenderer::update_capslock_animation`. -/
def DashboardRenderer.update_capslock_animation (s : DashboardRenderer) (now : Bool) :
    DashboardRenderer :=
  match s.prev_caps_lock with
  | some prev =>
    if prev ≠ now then
      { s with caps_anim_from := prev, caps_anim_to := now, caps_anim_step := 0,
               prev_caps_lock := some now }
    else { s with prev_caps_lock := some now }
  | none => { s with prev_caps_lock := some now }

/-- `DashboardRenderer::update_numlock_animation`. -/
def DashboardRenderer.update_numlock_animation (s : DashboardRenderer) (now : Bool) :
    DashboardRenderer :=
  match s.prev_num_lock with
  | some prev =>
    if prev ≠ now then
      { s with num_anim_from := prev, num_anim_to := now, num_anim_step := 0,
               prev_num_lock := some now }
    else { s with prev_num_lock := some now }
  | none => { s with prev_num_lock := some now }

/-- `DashboardRenderer::update_scrolllock_animation`. -/
def DashboardRenderer.update_scrolllock_animation (s : DashboardRenderer) (now : Bool) :
    DashboardRenderer :=
  match s.prev_scroll_lock with
  | some prev =>
    if prev ≠ now then
      { s with scroll_anim_from := prev, scroll_anim_to := now, scroll_anim_step := 0,
               prev_scroll_lock := some now }
    else { s with prev_scroll_lock := some now }
  | none => { s with prev_scroll_lock := some now }

/-- The caps-lock `caps_anim` argument computed in `draw_keyboard`:
`Some((from, to, step, len))` while `step < len`, `None` when settled. -/
def DashboardRenderer.capsAnimOf (s : DashboardRenderer) : Option (Bool × Bool × Nat × Nat) :=
  if s.caps_anim_step < s.caps_anim_len then
    some (s.caps_anim_from, s.caps_anim_to, s.caps_anim_step, s.caps_anim_len)
  else none

/-- The scroll-lock `scroll_anim` argument computed in `draw_keyboard`. -/
def DashboardRenderer.scrollAnimOf (s : DashboardRenderer) : Option (Bool × Bool × Nat × Nat) :=
  if s.scroll_anim_step < s.scroll_anim_len then
    some (s.scroll_anim_from, s.scroll_anim_to, s.scroll_anim_step, s.scroll_anim_len)
  else none

/-- `DashboardRenderer::chevron_bitmap`: the four hand-authored 9-wide by
10-tall masks (bit 0 = leftmost pixel). -/
def chevron_bitmap (up on_state : Bool) : List Nat :=
  if up then
    if on_state then
      [0x010, 0x038, 0x07C, 0x0FE, 0x1FF, 0x038, 0x038, 0x038, 0x038, 0x038]
    else
      [0x010, 0x028, 0x044, 0x082, 0x1EF, 0x028, 0x028, 0x028, 0x028, 0x038]
  else
    if on_state then
      [0x038, 0x038, 0x038, 0x038, 0x038, 0x1FF, 0x0FE, 0x07C, 0x038, 0x010]
    else
      [0x038, 0x028, 0x028, 0x028, 0x028, 0x1EF, 0x082, 0x044, 0x028, 0x010]

/-- Transition progress `t = step / len` of `draw_chevron`, clamped to
`[0, 1]` (1 when `len == 0`). -/
def chevronT (step len : Nat) : ℚ :=
  if len = 0 then 1 else clampQ ((step : ℚ) / (len : ℚ)) 0 1

/-- The blended bitmap of `draw_chevron`: rows within `round(t*5)` of the
center row 4 come from the target bitmap, outer rows from the source
bitmap. -/
def chevronBlend (up from_on to_on : Bool) (step len : Nat) : List Nat :=
  let t := chevronT step len
  let fromBm := chevron_bitmap up from_on
  let toBm := chevron_bitmap up to_on
  let radius := clampI (round (t * 5)) 0 5
  (List.range 10).map (fun (row : Nat) =>
    if |((row : Int)) - 4| ≤ radius then toBm.getD row 0 else fromBm.getD row 0)

/-- The decaying vertical offset of `draw_chevron`: magnitude
`round((1-t)*3)`, downward for an OFF target, gliding by arrow orientation
for an ON target. -/
def chevronShift (up to_on : Bool) (step len : Nat) : Int :=
  let t := chevronT step len
  let shift_mag := round ((1 - t) * 3)
  if !to_on then shift_mag else if up then -shift_mag else shift_mag

/-- Row-blit of a 9-wide bitmap at `(x, yBase)`:
`set(x + col, yBase + row)` for each set bit. -/
def blitBitmap9 (c : Canvas) (x yBase : Int) (bitmap : List Nat) : Canvas :=
  bitmap.enum.foldl (fun acc rowBits =>
    (intRange 0 9).foldl (fun a col =>
      if Nat.testBit rowBits.2 col.toNat then a.set (x + col) (yBase + (rowBits.1 : Int)) true
      else a) acc) c

/-- `DashboardRenderer::draw_chevron`. -/
def draw_chevron (c : Canvas) (x y _w : Int) (up on_state : Bool)
    (anim : Option (Bool × Bool × Nat × Nat)) : Canvas :=
  match anim with
  | some (from_on, to_on, step, len) =>
    blitBitmap9 c x (y + chevronShift up to_on step len) (chevronBlend up from_on to_on step len)
  | none => blitBitmap9 c x (y + 0) (chevron_bitmap up on_state)

/-- Shackle openness computed in `DashboardRenderer::draw_padlock`: the
static value (`0` closed when on, `3` open when off), overridden by linear
interpolation while the num-lock transition is active. -/
def DashboardRenderer.padlockOpenness (s : DashboardRenderer) (on_state : Bool) : Int :=
  if s.num_anim_step < s.num_anim_len then
    let fromV : ℚ := if s.num_anim_from then 0 else 3
    let toV : ℚ := if s.num_anim_to then 0 else 3
    let t : ℚ := (s.num_anim_step : ℚ) / (s.num_anim_len : ℚ)
    round (fromV + (toV - fromV) * t)
  else if on_state then 0 else 3

/-- Canvas effect of `DashboardRenderer::draw_padlock` (body plus shackle),
with the already-computed openness. -/
def draw_padlock_canvas (c : Canvas) (openness : Int) (x y w : Int) (on_state : Bool) : Canvas :=
  let body_x := x + 1
  let body_y := y + 6
  let body_w := w - 2
  let body_h : Int := 5
  let c := if on_state then
      (c.rect_fill body_x body_y body_w body_h true).set (x + Int.tdiv w 2) (body_y + 2) false
    else c.rect_border body_x body_y body_w body_h true
  let shackle_top := y + 2 - openness
  let left := x + 2
  let right := x + w - 3
  let c := c.line left body_y left (shackle_top + 1) true
  let c := c.line (left + 1) shackle_top (right - 1) shackle_top true
  if openness ≤ 1 then c.line right (shackle_top + 1) right body_y true
  else c.line right (shackle_top + openness) right (shackle_top + openness + 1) true

/-- The three `update_*lock_animation` calls at the head of
`draw_keyboard`, in source order. -/
def DashboardRenderer.kbdUpdates (caps num scroll : Bool) (s : DashboardRenderer) :
    DashboardRenderer :=
  ((s.update_capslock_animation caps).update_numlock_animation num).update_scrolllock_animation
    scroll

/-- Caps-lock step advance in `draw_keyboard`
(`if caps_anim.is_some() { saturating_add(1) }`). -/
def DashboardRenderer.capsInc (s : DashboardRenderer) : DashboardRenderer :=
  if s.caps_anim_step < s.caps_anim_len then
    { s with caps_anim_step := satAdd8 s.caps_anim_step 1 }
  else s

/-- Num-lock step advance inside `draw_padlock`. -/
def DashboardRenderer.numInc (s : DashboardRenderer) : DashboardRenderer :=
  if s.num_anim_step < s.num_anim_len then
    { s with num_anim_step := satAdd8 s.num_anim_step 1 }
  else s

/-- Scroll-lock step advance in `draw_keyboard`. -/
def DashboardRenderer.scrollInc (s : DashboardRenderer) : DashboardRenderer :=
  if s.scroll_anim_step < s.scroll_anim_len then
    { s with scroll_anim_step := satAdd8 s.scroll_anim_step 1 }
  else s

/-- The three step advances of one `draw_keyboard` call, in source order. -/
def DashboardRenderer.kbdIncs (s : DashboardRenderer) : DashboardRenderer :=
  s.capsInc.numInc.scrollInc

/-- Animation-state effect of one `draw_keyboard` call: the three signal
updates, then the three step advances. Each icon's counter is read by its
own draw call before its own advance and is touched by nothing else in the
call, so the state effect commutes past the canvas drawing. -/
def DashboardRenderer.kbdStateTick (caps num scroll : Bool) (s : DashboardRenderer) :
    DashboardRenderer :=
  (DashboardRenderer.kbdUpdates caps num scroll s).kbdIncs

/-- `DashboardRenderer::draw_keyboard`: three icons right-aligned in the
display, each independently toggle-animated. -/
def DashboardRenderer.draw_keyboard (s : DashboardRenderer) (_widget : Widget)
    (sample : MetricsSample) : DashboardRenderer :=
  let s1 := DashboardRenderer.kbdUpdates sample.caps_lock sample.num_lock sample.scroll_lock s
  let icon_w : Int := 9
  let gap : Int := 1
  let total_w := icon_w * 3 + gap * 2
  let start_x := max ((s1.width : Int) - total_w - 1) 0
  let y : Int := 1
  let c1 := draw_chevron s1.canvas start_x y icon_w true sample.caps_lock s1.capsAnimOf
  let num_x := start_x + icon_w + gap
  let c2 := draw_padlock_canvas c1 (s1.padlockOpenness sample.num_lock) num_x y icon_w
    sample.num_lock
  let scrl_x := num_x + icon_w + gap
  let c3 := draw_chevron c2 scrl_x y icon_w false sample.scroll_lock s1.scrollAnimOf
  { s1.kbdIncs with canvas := c3 }

/-! ## Bar, graph and icon widget renderers (`src/dashboard.rs`) -/

/-- Fill length of `DashboardRenderer::draw_bar`:
`round(inner_extent * clamp(percent, 0, 100) / 100)`, exactly the source's
`let p = percent.clamp(0.0, 100.0); ((inner as f32) * (p / 100.0)).round()`. -/
def barFillLen (inner : Int) (percent : ℚ) : Int :=
  round ((inner : ℚ) * (clampQ percent 0 100 / 100))

/-- `DashboardRenderer::draw_bar`: optional 1px border with inset, zero-size
guard, then a bottom-anchored (vertical) or left-anchored (otherwise) fill. -/
def draw_bar (c : Canvas) (pos : Position) (percent : ℚ) (direction : String)
    (border : Bool) : Canvas :=
  let c := if border then c.rect_border pos.x pos.y pos.w pos.h true else c
  let inner_x := if border then pos.x + 1 else pos.x
  let inner_y := if border then pos.y + 1 else pos.y
  let inner_w := if border then pos.w - 2 else pos.w
  let inner_h := if border then pos.h - 2 else pos.h
  if inner_w ≤ 0 ∨ inner_h ≤ 0 then c
  else if direction = "vertical" then
    let fill_h := barFillLen inner_h percent
    c.rect_fill inner_x (inner_y + (inner_h - fill_h)) inner_w fill_h true
  else
    let fill_w := barFillLen inner_w percent
    c.rect_fill inner_x inner_y fill_w inner_h true

/-- The 8-wide by 9-tall `CHIP` icon bitmap of `draw_cpu_icon` (0/1 cells). -/
def CHIP : List (List Nat) :=
  [[0,0,1,0,0,1,0,0],
   [0,1,1,1,1,1,1,0],
   [0,1,0,0,0,0,1,0],
   [1,1,0,0,0,0,1,1],
   [0,1,0,1,1,0,1,0],
   [1,1,0,0,0,0,1,1],
   [0,1,0,0,0,0,1,0],
   [0,1,1,1,1,1,1,0],
   [0,0,1,0,0,1,0,0]]

/-- `DashboardRenderer::draw_cpu_icon`: invert-blit the chip icon centered
horizontally, 2px below the widget top. -/
def draw_cpu_icon (c : Canvas) (pos : Position) : Canvas :=
  let icon_w : Int := 8
  let ox := pos.x + Int.tdiv (pos.w - icon_w) 2
  let oy := pos.y + 2
  CHIP.enum.foldl (fun acc rowCols =>
    rowCols.2.enum.foldl (fun a colPx =>
      if colPx.2 = 1 then a.invert (ox + (colPx.1 : Int)) (oy + (rowCols.1 : Int))
      else a) acc) c

/-- `DashboardRenderer::draw_cpu`: bar (default vertical, no border) plus the
chip icon. -/
def DashboardRenderer.draw_cpu (s : DashboardRenderer) (widget : Widget)
    (sample : MetricsSample) : DashboardRenderer :=
  let c := draw_bar s.canvas widget.position sample.cpu_percent
    ((widget.bar.map fun b => b.direction).getD "vertical")
    ((widget.bar.map fun b => b.border).getD false)
  { s with canvas := draw_cpu_icon c widget.position }

/-- `DashboardRenderer::draw_graph`: per-column heights by linear
interpolation between sample points, checkerboard-dithered fill below the
line, then the solid line pixel. -/
def draw_graph (c : Canvas) (pos : Position) (history : List ℚ) : Canvas :=
  if history.length < 2 ∨ pos.w ≤ 1 ∨ pos.h ≤ 1 then c
  else
    let len := history.length
    let bottom := pos.y + pos.h - 1
    let vyOf : ℚ → Int := fun v =>
      pos.y + pos.h - 1 - truncQ ((v / 100) * (((pos.h - 1) : Int) : ℚ))
    let init : Int × Int × List Int := (pos.x, vyOf (history.getD 0 0), [])
    let res := ((List.range len).drop 1).foldl (fun st (i : Nat) =>
      let x := pos.x + Int.tdiv ((i : Int) * (pos.w - 1)) ((len : Int) - 1)
      let vy := vyOf (history.getD i 0)
      let dx := x - st.1
      let cols := (intRange st.1 (x + 1)).map (fun cx =>
        let t : ℚ := if dx = 0 then 0 else (((cx - st.1) : Int) : ℚ) / ((dx : Int) : ℚ)
        round (((st.2.1 : Int) : ℚ) + t * (((vy - st.2.1) : Int) : ℚ)))
      (x + 1, vy, st.2.2 ++ cols)) init
    res.2.2.enum.foldl (fun acc ciLy =>
      let cx := pos.x + (ciLy.1 : Int)
      let acc := (intRange (ciLy.2 + 1) (bottom + 1)).foldl (fun a fy =>
        if Int.tmod (cx + fy) 2 = 0 then a.set cx fy true else a) acc
      acc.set cx ciLy.2 true) c

/-- `DashboardRenderer::draw_memory`: push the sample into the shared
`mem_history` (capacity `graph.history`, default widget width, minimum 2,
oldest dropped first), draw the graph over it, then the right-aligned tiny
percent readout. -/
def DashboardRenderer.draw_memory (s : DashboardRenderer) (widget : Widget)
    (sample : MetricsSample) : DashboardRenderer :=
  let history_len := max ((widget.graph.map fun g => g.history).getD
    (max widget.position.w 1).toNat) 2
  let hist1 := s.mem_history ++ [sample.mem_percent]
  let hist := if hist1.length > history_len then hist1.drop (hist1.length - history_len)
    else hist1
  let c := draw_graph s.canvas widget.position hist
  let text := padLeft3 (intChars (round sample.mem_percent)) ++ ['%']
  let char_w : Int := 5
  let text_px := (text.length : Int) * char_w
  let text_x := widget.position.x + widget.position.w - text_px - 1
  let c := c.draw_text_tiny text_x (widget.position.y + 1) text
  { s with canvas := c, mem_history := hist }

/-- `UNITS` of `human_speed`. -/
def UNITS : List Char := ['B', 'K', 'M', 'G']

/-- The `while value >= 1024.0 && unit < UNITS.len() - 1` reduction loop of
`human_speed`, structurally bounded by the at-most-3 iterations the
`unit < 3` guard allows. -/
def humanReduceAux : Nat → ℚ → Nat → ℚ × Nat
  | 0, value, unit => (value, unit)
  | fuel + 1, value, unit =>
    if 1024 ≤ value ∧ unit < 3 then humanReduceAux fuel (value / 1024) (unit + 1)
    else (value, unit)

/-- The reduction loop of `human_speed`, entered with `unit = 0`. -/
def humanReduce (value : ℚ) (unit : Nat) : ℚ × Nat := humanReduceAux 3 value unit

/-- Digits of `format!("{:.0}", v)` for the nonnegative values used here
(ties rounded up; Rust formatting rounds ties to even, which differs only on
exact halves of a byte rate and affects no claim). -/
def fmt0 (v : ℚ) : List Char := intChars (round v)

/-- Digits of `format!("{:.1}", v)` for the nonnegative values used here
(same tie-rounding caveat as `fmt0`). -/
def fmt1 (v : ℚ) : List Char :=
  let t := round (v * 10)
  intChars (Int.tdiv t 10) ++ ['.'] ++ intChars (Int.tmod t 10)

/-- `human_speed` from `src/dashboard.rs`: repeatedly divide by 1024, then
format with 0 decimals for bytes and 1 decimal otherwise, unit char last. -/
def human_speed (bytes_per_sec : ℚ) : List Char :=
  let value := max bytes_per_sec 0
  let vu := humanReduce value 0
  (if vu.2 = 0 then fmt0 vu.1 else fmt1 vu.1) ++ [UNITS.getD vu.2 'B']

/-- `DashboardRenderer::draw_network`: two-line tiny-font readout with the
unit character right-aligned independently of the value width. -/
def DashboardRenderer.draw_network (s : DashboardRenderer) (widget : Widget)
    (sample : MetricsSample) : DashboardRenderer :=
  let p := widget.position
  let down := human_speed sample.net_down_bps
  let up := human_speed sample.net_up_bps
  let char_w : Int := 5
  let right_edge := p.x + p.w - char_w
  let up_val := up.take (up.length - 1)
  let up_unit := up.drop (up.length - 1)
  let dn_val := down.take (down.length - 1)
  let dn_unit := down.drop (down.length - 1)
  let c := s.canvas.draw_text_tiny (p.x + 1) (p.y + 1) (['U', ' '] ++ up_val)
  let c := c.draw_text_tiny right_edge (p.y + 1) up_unit
  let c := c.draw_text_tiny (p.x + 1) (p.y + 10) (['D', ' '] ++ dn_val)
  let c := c.draw_text_tiny right_edge (p.y + 10) dn_unit
  { s with canvas := c }

/-- `DashboardRenderer::draw_volume`: update the counter state, draw the bar
(default horizontal, bordered), the optional speaker icon with 0-3 wave
arcs, the (possibly digit-roll animated) clipped 3-digit + percent readout,
then advance the counter animation. -/
def DashboardRenderer.draw_volume (s : DashboardRenderer) (widget : Widget)
    (sample : MetricsSample) : DashboardRenderer :=
  let current_volume := clampI (round sample.volume_percent) 0 100
  let s1 := s.update_volume_animation current_volume
  let c := draw_bar s1.canvas widget.position sample.volume_percent
    ((widget.bar.map fun b => b.direction).getD "horizontal")
    ((widget.bar.map fun b => b.border).getD true)
  let c :=
    if widget.show_icon then
      let p := widget.position
      let cx := p.x + 2
      let top := p.y + 3
      let bot := p.y + p.h - 4
      let cy := p.y + Int.tdiv p.h 2
      let half := Int.tdiv (bot - top) 2
      let body_w : Int := 3
      let body_half := Int.tdiv (half * 2) 3
      let c := c.rect_fill_invert cx (cy - body_half) body_w (body_half * 2 + 1)
      let c := c.line_invert (cx + body_w) (cy - body_half) (cx + body_w + 3) top
      let c := c.line_invert (cx + body_w) (cy + body_half) (cx + body_w + 3) bot
      let c := c.line_invert (cx + body_w + 3) top (cx + body_w + 3) bot
      let vol := sample.volume_percent
      let wave_count : Nat :=
        if vol ≤ 0 then 0 else if vol ≤ 33 then 1 else if vol ≤ 66 then 2 else 3
      let c := if wave_count ≥ 1 then
          let w1_x := cx + body_w + 5
          let w1_h := Int.tdiv half 3
          (intRange (-w1_h) (w1_h + 1)).foldl (fun a dy => a.invert w1_x (cy + dy)) c
        else c
      let c := if wave_count ≥ 2 then
          let w2_x := cx + body_w + 7
          let w2_h := Int.tdiv (half * 2) 3
          (intRange (-w2_h) (w2_h + 1)).foldl (fun a dy => a.invert w2_x (cy + dy)) c
        else c
      if wave_count ≥ 3 then
        let w3_x := cx + body_w + 9
        (intRange (-half) (half + 1)).foldl (fun a dy => a.invert w3_x (cy + dy)) c
      else c
    else c
  let scale : Int := 2
  let p := widget.position
  let border := (widget.bar.map fun b => b.border).getD true
  let char_w := 5 * scale
  let text_px := 4 * char_w
  let text_h := 5 * scale
  let left_bound := p.x + (if widget.show_icon then 14 else 1)
  let right_bound := p.x + p.w - 2
  let text_x0 := right_bound - text_px + 1
  let text_x := if text_x0 < left_bound then left_bound else text_x0
  let base_y := p.y + max (Int.tdiv (p.h - text_h) 2) 0
  let clip_x := if border then p.x + 1 else p.x
  let clip_y := if border then p.y + 1 else p.y
  let clip_w := if border then p.w - 2 else p.w
  let clip_h := if border then p.h - 2 else p.h
  let text_clip_y := max base_y clip_y
  let text_clip_bottom := min (base_y + text_h - 1) (clip_y + clip_h - 1)
  let text_clip_h := max (text_clip_bottom - text_clip_y + 1) 0
  let c :=
    if s1.vol_anim_step < s1.vol_anim_len ∧ s1.vol_step_from ≠ s1.vol_step_to then
      let increasing := s1.vol_step_to > s1.vol_step_from
      let dir : Int := if increasing then -1 else 1
      let old_digits := volume_digits s1.vol_step_from
      let new_digits := volume_digits s1.vol_step_to
      let leave_frames := max (s1.vol_anim_len / 2) 1
      let handoff_frames : Nat := 1
      let enter_frames := max (s1.vol_anim_len - leave_frames - handoff_frames) 1
      let c := (List.range 3).foldl (fun a (i : Nat) =>
        let slot_x := text_x + (i : Int) * char_w
        let slot_clip_x := max slot_x clip_x
        let slot_clip_right := min (slot_x + char_w - 1) (clip_x + clip_w - 1)
        let slot_clip_w := max (slot_clip_right - slot_clip_x + 1) 0
        let from_ch := old_digits.getD i ' '
        let to_ch := new_digits.getD i ' '
        if from_ch = to_ch then
          a.draw_char_scaled_invert_clipped slot_x base_y to_ch scale slot_clip_x
            text_clip_y slot_clip_w text_clip_h
        else if s1.vol_anim_step < leave_frames then
          let step := (s1.vol_anim_step : Int) + 1
          let offset := Int.tdiv (step * text_h) (leave_frames : Int)
          a.draw_char_scaled_invert_clipped slot_x (base_y + dir * offset) from_ch scale
            slot_clip_x text_clip_y slot_clip_w text_clip_h
        else if s1.vol_anim_step < leave_frames + handoff_frames then a
        else
          let step := (((s1.vol_anim_step - leave_frames - handoff_frames) : Nat) : Int) + 1
          let ef := max (enter_frames : Int) 1
          let offset := text_h - Int.tdiv (step * text_h) ef
          a.draw_char_scaled_invert_clipped slot_x (base_y - dir * offset) to_ch scale
            slot_clip_x text_clip_y slot_clip_w text_clip_h) c
      let percent_x := text_x + 3 * char_w
      let percent_clip_x := max percent_x clip_x
      let percent_clip_right := min (percent_x + char_w - 1) (clip_x + clip_w - 1)
      let percent_clip_w := max (percent_clip_right - percent_clip_x + 1) 0
      c.draw_char_scaled_invert_clipped percent_x base_y '%' scale percent_clip_x
        text_clip_y percent_clip_w text_clip_h
    else
      let shown := s1.volume_display.getD current_volume
      let digits := volume_digits shown
      let c := (List.range 3).foldl (fun a (i : Nat) =>
        let slot_x := text_x + (i : Int) * char_w
        let slot_clip_x := max slot_x clip_x
        let slot_clip_right := min (slot_x + char_w - 1) (clip_x + clip_w - 1)
        let slot_clip_w := max (slot_clip_right - slot_clip_x + 1) 0
        a.draw_char_scaled_invert_clipped slot_x base_y (digits.getD i ' ') scale
          slot_clip_x text_clip_y slot_clip_w text_clip_h) c
      let percent_x := text_x + 3 * char_w
      let percent_clip_x := max percent_x clip_x
      let percent_clip_right := min (percent_x + char_w - 1) (clip_x + clip_w - 1)
      let percent_clip_w := max (percent_clip_right - percent_clip_x + 1) 0
      c.draw_char_scaled_invert_clipped percent_x base_y '%' scale percent_clip_x
        text_clip_y percent_clip_w text_clip_h
  ({ s1 with canvas := c }).advance_volume_animation

/-! ## Orchestrator (`DashboardRenderer::render`) -/

/-- Per-widget dispatch step of the `for widget in &config.widgets` loop in
`render`: skip disabled widgets, dispatch the five known kinds, ignore
anything else (`_ => {}`). -/
def DashboardRenderer.widgetStep (sample : MetricsSample) (s : DashboardRenderer)
    (w : Widget) : DashboardRenderer :=
  if !w.enabled then s
  else
    match w.kind with
    | "cpu" => s.draw_cpu w sample
    | "volume" => s.draw_volume w sample
    | "memory" => s.draw_memory w sample
    | "network" => s.draw_network w sample
    | "keyboard" => s.draw_keyboard w sample
    | _ => s

/-- The widget loop of `render`, as a fold over the configured widgets in
configuration order. -/
def widgetsPass (widgets : List Widget) (sample : MetricsSample)
    (s : DashboardRenderer) : DashboardRenderer :=
  widgets.foldl (DashboardRenderer.widgetStep sample) s

/-- `DashboardRenderer::render`. Two departures from the Rust surface, both
forced by the embedding: the wall clock is passed in as `elapsedMs`
(`self.boot_started.elapsed()` in milliseconds), and the boot-logo painter
`draw_boot_logo` - whose body is `f32` trigonometry with no exact shallow
embedding - is passed in as `bootDraw`, receiving the same clamped progress
value the source computes. Every theorem below quantifies over `bootDraw`,
so nothing is assumed about the boot logo's pixels. -/
def DashboardRenderer.render (bootDraw : ℚ → Canvas → Canvas) (elapsedMs : ℚ)
    (config : DashboardConfig) (sample : MetricsSample) (s : DashboardRenderer) :
    List Nat × DashboardRenderer :=
  let s := { s with canvas := s.canvas.clear (config.display.background > 0) }
  if elapsedMs < bootDurationMs then
    let progress := clampQ (elapsedMs / bootDurationMs) 0 1
    let s := { s with canvas := bootDraw progress s.canvas }
    (s.canvas.to_packed_bytes, s)
  else
    let s := widgetsPass config.widgets sample s
    (s.canvas.to_packed_bytes, s)

/-! ## Shared fixtures and iteration helpers for the claim theorems -/

/-- Projection-preservation through `Function.iterate`. -/
theorem iterate_proj {α β : Type} (f : α → α) (proj : α → β)
    (hf : ∀ a, proj (f a) = proj a) : ∀ (n : Nat) (a : α), proj (f^[n] a) = proj a := by
  intro n
  induction n with
  | zero => intro a; rfl
  | succ k ih =>
    intro a
    rw [Function.iterate_succ_apply, ih (f a), hf a]

/-- The volume-counter fields of the renderer state. -/
def volState (s : DashboardRenderer) :
    Option Int × Int × Int × Int × Nat × Nat × Nat :=
  (s.volume_display, s.volume_target, s.vol_step_from, s.vol_step_to,
   s.vol_anim_step, s.vol_anim_len, s.vol_anim_speed)

/-- The lock-key animation fields of the renderer state. -/
def lockState (s : DashboardRenderer) :
    (Option Bool × Nat × Nat × Bool × Bool) × (Option Bool × Nat × Nat × Bool × Bool) ×
      (Option Bool × Nat × Nat × Bool × Bool) :=
  ((s.prev_caps_lock, s.caps_anim_step, s.caps_anim_len, s.caps_anim_from, s.caps_anim_to),
   (s.prev_num_lock, s.num_anim_step, s.num_anim_len, s.num_anim_from, s.num_anim_to),
   (s.prev_scroll_lock, s.scroll_anim_step, s.scroll_anim_len, s.scroll_anim_from,
    s.scroll_anim_to))

/-- A concrete metrics snapshot used by witnesses and counterexamples. -/
def sampleW : MetricsSample :=
  ⟨0, 50, 40, 0, [], 0, 0, false, true, false⟩

/-! ## C9: bar fill -/

/-- C9: the bar fill length equals `round(inner_extent * clamp(percent,0,100)/100)`
(`barFillLen`, the exact expression computed by `draw_bar`), is non-decreasing
in `percent` for a fixed nonnegative inner extent, equals 0 at `percent = 0`
and the full inner extent at `percent = 100`; and with positive inner extents
`draw_bar` anchors vertical fills at the bottom (fill occupies the lowest
`fill_h` inner rows) and other fills at the left (fill occupies the leftmost
`fill_w` inner columns). -/
theorem bar_fill_monotone (inner : Int) (p1 p2 : ℚ) (hinner : 0 ≤ inner) :
    (p1 ≤ p2 → barFillLen inner p1 ≤ barFillLen inner p2) ∧
    barFillLen inner 0 = 0 ∧
    barFillLen inner 100 = inner ∧
    (∀ (c : Canvas) (pos : Position) (percent : ℚ),
      (0 < pos.w → 0 < pos.h →
        draw_bar c pos percent "vertical" false =
          c.rect_fill pos.x (pos.y + (pos.h - barFillLen pos.h percent)) pos.w
            (barFillLen pos.h percent) true) ∧
      (0 < pos.w → 0 < pos.h →
        draw_bar c pos percent "horizontal" false =
          c.rect_fill pos.x pos.y (barFillLen pos.w percent) pos.h true)) := by
  refine ⟨?_, ?_, ?_, ?_⟩
  · intro h12
    unfold barFillLen clampQ
    rw [round_eq, round_eq]
    apply Int.floor_le_floor
    have hcl : min (max p1 0) 100 ≤ min (max p2 0) 100 :=
      min_le_min (max_le_max h12 le_rfl) le_rfl
    have hm : (inner : ℚ) * (min (max p1 0) 100 / 100) ≤
        (inner : ℚ) * (min (max p2 0) 100 / 100) := by
      apply mul_le_mul_of_nonneg_left _ (by exact_mod_cast hinner)
      exact div_le_div_of_nonneg_right hcl (by norm_num)
    linarith
  · unfold barFillLen clampQ
    norm_num
  · unfold barFillLen clampQ
    norm_num
  · intro c pos percent
    constructor
    · intro hw hh
      have hg : ¬(pos.w ≤ 0 ∨ pos.h ≤ 0) := by omega
      simp [draw_bar, hg]
    · intro hw hh
      have hg : ¬(pos.w ≤ 0 ∨ pos.h ≤ 0) := by omega
      simp [draw_bar, hg]

theorem bar_fill_monotone_witness :
    (0 : Int) ≤ 10 ∧
    (((30 : ℚ) ≤ 60 → barFillLen 10 30 ≤ barFillLen 10 60) ∧
      barFillLen 10 0 = 0 ∧
      barFillLen 10 100 = 10 ∧
      (∀ (c : Canvas) (pos : Position) (percent : ℚ),
        (0 < pos.w → 0 < pos.h →
          draw_bar c pos percent "vertical" false =
            c.rect_fill pos.x (pos.y + (pos.h - barFillLen pos.h percent)) pos.w
              (barFillLen pos.h percent) true) ∧
        (0 < pos.w → 0 < pos.h →
          draw_bar c pos percent "horizontal" false =
            c.rect_fill pos.x pos.y (barFillLen pos.w percent) pos.h true))) :=
  ⟨by norm_num, bar_fill_monotone 10 30 60 (by norm_num)⟩

/-! ## C7: malformed widgets -/

/-- An enabled widget of an unknown kind. -/
def widgetUnknown : Widget := ⟨"clock", true, none, ⟨0, 0, 8, 8⟩, none, false, none, none⟩

/-- An enabled cpu widget with a zero-size position. -/
def widgetBadSize : Widget := ⟨"cpu", true, none, ⟨0, 0, 0, 0⟩, none, false, none, none⟩

/-- A configuration whose only widget is `widgetBadSize`, on an 8x8 display. -/
def cfgBadSize : DashboardConfig := ⟨"", 33, ⟨8, 8, 0⟩, [widgetBadSize]⟩

/-- An empty-widget-list configuration on an 8x8 display. -/
def cfgW : DashboardConfig := ⟨"", 33, ⟨8, 8, 0⟩, []⟩

/-- C7 counterexample: a zero-size widget is NOT silently skipped. Rendering
a frame (past the boot window) whose only widget is an enabled cpu widget
with `w = 0, h = 0` produces output different from the widget-free
background frame: `draw_cpu` draws its chip icon (and `draw_bar` would draw
its border when configured) regardless of the position's size, so the claim
that a zero/negative-size widget "draws nothing" fails at this input. -/
theorem zero_size_widget_draws_cex :
    (DashboardRenderer.render (fun _ c => c) 2100 cfgBadSize sampleW
      (DashboardRenderer.new 8 8)).1 ≠
    ((DashboardRenderer.new 8 8).canvas.clear (cfgBadSize.display.background > 0)).to_packed_bytes := by
  decide

/-- C7 as amended: widgets whose kind is unknown, and disabled widgets, are
silently skipped (their dispatch step is the identity on canvas and state),
and removing such a widget from anywhere in the configuration leaves the
whole rendered frame unchanged - every other enabled widget still renders,
and `render` (a total function) never aborts the frame. Widgets with
zero/negative size are NOT size-checked: their draw routine runs and may
draw size-independent elements (see the counterexample). -/
theorem malformed_widget_skip_amended (w : Widget) (sample : MetricsSample)
    (s : DashboardRenderer)
    (hw : w.enabled = false ∨
      w.kind ∉ (["cpu", "volume", "memory", "network", "keyboard"] : List String)) :
    DashboardRenderer.widgetStep sample s w = s ∧
    (∀ (ws1 ws2 : List Widget),
      widgetsPass (ws1 ++ w :: ws2) sample s = widgetsPass (ws1 ++ ws2) sample s) ∧
    (∀ (bootDraw : ℚ → Canvas → Canvas) (elapsed : ℚ) (cfg : DashboardConfig)
      (ws1 ws2 : List Widget),
      DashboardRenderer.render bootDraw elapsed { cfg with widgets := ws1 ++ w :: ws2 }
        sample s =
      DashboardRenderer.render bootDraw elapsed { cfg with widgets := ws1 ++ ws2 }
        sample s) := by
  have hstep : ∀ (s2 : DashboardRenderer), DashboardRenderer.widgetStep sample s2 w = s2 := by
    intro s2
    rcases hw with he | hk
    · simp [DashboardRenderer.widgetStep, he]
    · rw [DashboardRenderer.widgetStep]
      by_cases he : w.enabled
      · rw [if_neg (by simp [he])]
        split
        · exact absurd (by simp_all) hk
        · exact absurd (by simp_all) hk
        · exact absurd (by simp_all) hk
        · exact absurd (by simp_all) hk
        · exact absurd (by simp_all) hk
        · rfl
      · rw [if_pos (by simp [he])]
  have hpass : ∀ (ws1 ws2 : List Widget) (s2 : DashboardRenderer),
      widgetsPass (ws1 ++ w :: ws2) sample s2 = widgetsPass (ws1 ++ ws2) sample s2 := by
    intro ws1 ws2 s2
    unfold widgetsPass
    rw [List.foldl_append, List.foldl_append, List.foldl_cons,
      hstep (List.foldl (DashboardRenderer.widgetStep sample) s2 ws1)]
  refine ⟨hstep s, fun ws1 ws2 => hpass ws1 ws2 s, ?_⟩
  intro bootDraw elapsed cfg ws1 ws2
  unfold DashboardRenderer.render
  by_cases hb : elapsed < bootDurationMs
  · rw [if_pos hb, if_pos hb]
  · rw [if_neg hb, if_neg hb]
    simp only
    rw [hpass]

theorem malformed_widget_skip_amended_witness :
    (widgetUnknown.enabled = false ∨
      widgetUnknown.kind ∉ (["cpu", "volume", "memory", "network", "keyboard"] : List String)) ∧
    (DashboardRenderer.widgetStep sampleW (DashboardRenderer.new 8 8) widgetUnknown =
      DashboardRenderer.new 8 8 ∧
    (∀ (ws1 ws2 : List Widget),
      widgetsPass (ws1 ++ widgetUnknown :: ws2) sampleW (DashboardRenderer.new 8 8) =
        widgetsPass (ws1 ++ ws2) sampleW (DashboardRenderer.new 8 8)) ∧
    (∀ (bootDraw : ℚ → Canvas → Canvas) (elapsed : ℚ) (cfg : DashboardConfig)
      (ws1 ws2 : List Widget),
      DashboardRenderer.render bootDraw elapsed { cfg with widgets := ws1 ++ widgetUnknown :: ws2 }
          sampleW (DashboardRenderer.new 8 8) =
        DashboardRenderer.render bootDraw elapsed { cfg with widgets := ws1 ++ ws2 }
          sampleW (DashboardRenderer.new 8 8))) :=
  ⟨by right; decide,
   malformed_widget_skip_amended widgetUnknown sampleW (DashboardRenderer.new 8 8)
     (by right; decide)⟩

/-! ## C3: boot sequence exclusivity -/

/-- C3: `render` is a hard cutover on `elapsed < boot_duration`. Strictly
before the 2100ms boundary the output is the boot frame alone - it is
invariant under changing the metrics snapshot and the whole widget list, and
equals packing the boot painter's output over the cleared background, with no
widget draw applied. From the boundary on, the output is the widget pass
alone - invariant under the elapsed time and under the boot painter, with no
boot element drawn. The theorem quantifies over every boot painter
`bootDraw`, so it holds whatever the boot logo paints. -/
theorem render_boot_widget_exclusivity (bootDraw : ℚ → Canvas → Canvas) (elapsedMs : ℚ)
    (config : DashboardConfig) (sample : MetricsSample) (s : DashboardRenderer) :
    (elapsedMs < bootDurationMs →
      (∀ (sample2 : MetricsSample) (ws2 : List Widget),
        DashboardRenderer.render bootDraw elapsedMs { config with widgets := ws2 } sample2 s =
          DashboardRenderer.render bootDraw elapsedMs config sample s) ∧
      DashboardRenderer.render bootDraw elapsedMs config sample s =
        ((bootDraw (clampQ (elapsedMs / bootDurationMs) 0 1) (s.canvas.clear (config.display.background > 0))).to_packed_bytes,
         { s with canvas := bootDraw (clampQ (elapsedMs / bootDurationMs) 0 1) (s.canvas.clear (config.display.background > 0)) })) ∧
    (bootDurationMs ≤ elapsedMs →
      (∀ (bootDraw2 : ℚ → Canvas → Canvas) (elapsed2 : ℚ), bootDurationMs ≤ elapsed2 →
        DashboardRenderer.render bootDraw2 elapsed2 config sample s =
          DashboardRenderer.render bootDraw elapsedMs config sample s) ∧
      DashboardRenderer.render bootDraw elapsedMs config sample s =
        (let s2 := widgetsPass config.widgets sample { s with canvas := s.canvas.clear (config.display.background > 0) }
         (s2.canvas.to_packed_bytes, s2))) := by
  constructor
  · intro hb
    constructor
    · intro sample2 ws2
      unfold DashboardRenderer.render
      rw [if_pos hb, if_pos hb]
    · unfold DashboardRenderer.render
      rw [if_pos hb]
  · intro hb
    have hnb : ¬(elapsedMs < bootDurationMs) := not_lt.mpr hb
    constructor
    · intro bootDraw2 elapsed2 h2
      have hnb2 : ¬(elapsed2 < bootDurationMs) := not_lt.mpr h2
      unfold DashboardRenderer.render
      rw [if_neg hnb, if_neg hnb2]
    · unfold DashboardRenderer.render
      rw [if_neg hnb]

theorem render_boot_widget_exclusivity_witness :
    DashboardRenderer.render (fun _ c => c) 3000 cfgW sampleW (DashboardRenderer.new 8 8) =
      DashboardRenderer.render (fun _ c => c) 2100 cfgW sampleW (DashboardRenderer.new 8 8) :=
  ((render_boot_widget_exclusivity (fun _ c => c) 2100 cfgW sampleW
      (DashboardRenderer.new 8 8)).2 (by norm_num [bootDurationMs])).1 (fun _ c => c) 3000
    (by norm_num [bootDurationMs])

/-! ## C6: widget animation-state ownership -/

/-- First enabled memory widget fixture. -/
def widgetMemA : Widget := ⟨"memory", true, none, ⟨0, 0, 8, 8⟩, none, false, none, none⟩

/-- Second enabled memory widget fixture, at a disjoint position. -/
def widgetMemB : Widget := ⟨"memory", true, none, ⟨8, 0, 8, 8⟩, none, false, none, none⟩

/-- C6 counterexample: two distinct memory widget instances do NOT have
disjoint animation state. The renderer holds one `mem_history` per KIND, so
rendering widget A pushes into the very buffer widget B's render then reads
and extends: B's post-render history is `[50, 50]` when A rendered first in
the same frame but `[50]` when B renders alone from the same state - A's
render mutated state used by B, refuting instance-disjoint ownership. -/
theorem widget_state_aliasing_cex :
    ((DashboardRenderer.new 16 8).draw_memory widgetMemA sampleW).mem_history = [50] ∧
    (((DashboardRenderer.new 16 8).draw_memory widgetMemA sampleW).draw_memory widgetMemB
        sampleW).mem_history = [50, 50] ∧
    ((DashboardRenderer.new 16 8).draw_memory widgetMemB sampleW).mem_history = [50] ∧
    ([50, 50] : List ℚ) ≠ [50] := by
  exact ⟨by decide, by decide, by decide, by decide⟩

theorem canvasUpd_mem (x : DashboardRenderer) (c : Canvas) :
    ({ x with canvas := c } : DashboardRenderer).mem_history = x.mem_history := rfl

theorem canvasUpd_vol (x : DashboardRenderer) (c : Canvas) :
    volState ({ x with canvas := c } : DashboardRenderer) = volState x := rfl

theorem canvasUpd_lock (x : DashboardRenderer) (c : Canvas) :
    lockState ({ x with canvas := c } : DashboardRenderer) = lockState x := rfl

theorem update_volume_other (s : DashboardRenderer) (now : Int) :
    (s.update_volume_animation now).mem_history = s.mem_history ∧
    lockState (s.update_volume_animation now) = lockState s := by
  unfold DashboardRenderer.update_volume_animation
  cases s.volume_display with
  | none => exact ⟨rfl, rfl⟩
  | some v =>
    dsimp only
    split_ifs <;> exact ⟨rfl, rfl⟩

theorem advanceVolBody_other (s : DashboardRenderer) :
    s.advanceVolBody.mem_history = s.mem_history ∧
    lockState s.advanceVolBody = lockState s := by
  unfold DashboardRenderer.advanceVolBody
  dsimp only
  split_ifs <;> exact ⟨rfl, rfl⟩

theorem advance_other (a : DashboardRenderer) :
    a.advance_volume_animation.mem_history = a.mem_history ∧
    lockState a.advance_volume_animation = lockState a :=
  ⟨iterate_proj DashboardRenderer.advanceVolBody (fun s2 => s2.mem_history)
      (fun b => (advanceVolBody_other b).1) _ a,
   iterate_proj DashboardRenderer.advanceVolBody lockState
      (fun b => (advanceVolBody_other b).2) _ a⟩

theorem update_caps_other (s : DashboardRenderer) (now : Bool) :
    (s.update_capslock_animation now).mem_history = s.mem_history ∧
    volState (s.update_capslock_animation now) = volState s := by
  unfold DashboardRenderer.update_capslock_animation
  cases s.prev_caps_lock with
  | none => exact ⟨rfl, rfl⟩
  | some p =>
    dsimp only
    split_ifs <;> exact ⟨rfl, rfl⟩

theorem update_num_other (s : DashboardRenderer) (now : Bool) :
    (s.update_numlock_animation now).mem_history = s.mem_history ∧
    volState (s.update_numlock_animation now) = volState s := by
  unfold DashboardRenderer.update_numlock_animation
  cases s.prev_num_lock with
  | none => exact ⟨rfl, rfl⟩
  | some p =>
    dsimp only
    split_ifs <;> exact ⟨rfl, rfl⟩

theorem update_scroll_other (s : DashboardRenderer) (now : Bool) :
    (s.update_scrolllock_animation now).mem_history = s.mem_history ∧
    volState (s.update_scrolllock_animation now) = volState s := by
  unfold DashboardRenderer.update_scrolllock_animation
  cases s.prev_scroll_lock with
  | none => exact ⟨rfl, rfl⟩
  | some p =>
    dsimp only
    split_ifs <;> exact ⟨rfl, rfl⟩

theorem kbdUpdates_other (caps num scroll : Bool) (s : DashboardRenderer) :
    (DashboardRenderer.kbdUpdates caps num scroll s).mem_history = s.mem_history ∧
    volState (DashboardRenderer.kbdUpdates caps num scroll s) = volState s := by
  unfold DashboardRenderer.kbdUpdates
  constructor
  · rw [(update_scroll_other _ _).1, (update_num_other _ _).1, (update_caps_other _ _).1]
  · rw [(update_scroll_other _ _).2, (update_num_other _ _).2, (update_caps_other _ _).2]

theorem capsInc_other (s : DashboardRenderer) :
    s.capsInc.mem_history = s.mem_history ∧ volState s.capsInc = volState s := by
  unfold DashboardRenderer.capsInc
  split_ifs <;> exact ⟨rfl, rfl⟩

theorem numInc_other (s : DashboardRenderer) :
    s.numInc.mem_history = s.mem_history ∧ volState s.numInc = volState s := by
  unfold DashboardRenderer.numInc
  split_ifs <;> exact ⟨rfl, rfl⟩

theorem scrollInc_other (s : DashboardRenderer) :
    s.scrollInc.mem_history = s.mem_history ∧ volState s.scrollInc = volState s := by
  unfold DashboardRenderer.scrollInc
  split_ifs <;> exact ⟨rfl, rfl⟩

theorem kbdIncs_other (s : DashboardRenderer) :
    s.kbdIncs.mem_history = s.mem_history ∧ volState s.kbdIncs = volState s := by
  unfold DashboardRenderer.kbdIncs
  constructor
  · rw [(scrollInc_other _).1, (numInc_other _).1, (capsInc_other _).1]
  · rw [(scrollInc_other _).2, (numInc_other _).2, (capsInc_other _).2]

/-- C6 as amended: animation state is keyed by widget kind, not by widget
instance - same-kind widgets share the renderer's single per-kind state (see
the counterexample) - but distinct kinds use disjoint fields: a widget
renderer of one kind never touches another kind's animation-state fields
(memory's history buffer, the volume counter septuple, the three lock-key
state quintuples), and the cpu and network renderers touch no animation
state at all. -/
theorem per_kind_state_disjointness (s : DashboardRenderer) (w : Widget)
    (sample : MetricsSample) :
    (volState (s.draw_memory w sample) = volState s ∧
      lockState (s.draw_memory w sample) = lockState s) ∧
    ((s.draw_volume w sample).mem_history = s.mem_history ∧
      lockState (s.draw_volume w sample) = lockState s) ∧
    ((s.draw_keyboard w sample).mem_history = s.mem_history ∧
      volState (s.draw_keyboard w sample) = volState s) ∧
    ((s.draw_cpu w sample).mem_history = s.mem_history ∧
      volState (s.draw_cpu w sample) = volState s ∧
      lockState (s.draw_cpu w sample) = lockState s) ∧
    ((s.draw_network w sample).mem_history = s.mem_history ∧
      volState (s.draw_network w sample) = volState s ∧
      lockState (s.draw_network w sample) = lockState s) := by
  refine ⟨⟨rfl, rfl⟩, ?_, ?_, ⟨rfl, rfl, rfl⟩, ⟨rfl, rfl, rfl⟩⟩
  · unfold DashboardRenderer.draw_volume
    constructor
    · rw [(advance_other _).1, canvasUpd_mem, (update_volume_other _ _).1]
    · rw [(advance_other _).2, canvasUpd_lock, (update_volume_other _ _).2]
  · unfold DashboardRenderer.draw_keyboard
    constructor
    · rw [canvasUpd_mem, (kbdIncs_other _).1, (kbdUpdates_other _ _ _ _).1]
    · rw [canvasUpd_vol, (kbdIncs_other _).2, (kbdUpdates_other _ _ _ _).2]

/-! ## C8: stepped-counter pacing -/

/-- The units-per-tick reading of the claim: with displayed value `d` and a
target `t` more than 8 away, one tick would advance the displayed value by
3 whole units ("increased by 2 when the distance exceeds 8, capped at 3
units per tick"). -/
def volumeUnitsPerTickClaim : Prop :=
  ∀ (s : DashboardRenderer) (t d : Int), s.volume_display = some d →
    8 < (t - d).natAbs →
    ((s.volTick t).volume_display.getD d - d).natAbs = 3

/-- C8 counterexample: the distance-scaled speed is applied to sub-animation
FRAMES, not to displayed units. From a settled display of 0, one tick with
target 100 (distance 100 > 8) advances the sub-animation by 3 frames out of
10 and the displayed value by 0 units, not 3. -/
theorem volume_units_per_tick_cex : ¬ volumeUnitsPerTickClaim := by
  intro h
  have h2 := h (DashboardRenderer.volTick 0 (DashboardRenderer.new 8 8)) 100 0
    (by decide) (by decide)
  revert h2
  decide

theorem advanceVolBody_step (s : DashboardRenderer) (hne : s.vol_step_from ≠ s.vol_step_to)
    (hlt : s.vol_anim_step + 1 < s.vol_anim_len) (h255 : s.vol_anim_len ≤ 255) :
    s.advanceVolBody = { s with vol_anim_step := s.vol_anim_step + 1 } := by
  unfold DashboardRenderer.advanceVolBody
  rw [if_neg (by push_neg; exact ⟨hne, by omega⟩)]
  dsimp only
  have hsat : satAdd8 s.vol_anim_step 1 = s.vol_anim_step + 1 := by
    unfold satAdd8
    omega
  rw [hsat, if_neg (by omega)]

theorem advanceVolBody_iter (k : Nat) : ∀ (s : DashboardRenderer),
    s.vol_step_from ≠ s.vol_step_to → s.vol_anim_step + k < s.vol_anim_len →
    s.vol_anim_len ≤ 255 →
    DashboardRenderer.advanceVolBody^[k] s = { s with vol_anim_step := s.vol_anim_step + k } := by
  induction k with
  | zero =>
    intro s h1 h2 h3
    rfl
  | succ k ih =>
    intro s h1 h2 h3
    rw [Function.iterate_succ_apply, advanceVolBody_step s h1 (by omega) h3]
    rw [ih { s with vol_anim_step := s.vol_anim_step + 1 } h1
      (by show s.vol_anim_step + 1 + k < s.vol_anim_len; omega) h3]
    show ({ s with vol_anim_step := s.vol_anim_step + 1 + k } : DashboardRenderer) =
      { s with vol_anim_step := s.vol_anim_step + (k + 1) }
    have harith : s.vol_anim_step + 1 + k = s.vol_anim_step + (k + 1) := by omega
    rw [harith]

/-- Preservation of a predicate through `Function.iterate`. -/
theorem iterate_pres {α : Type} (f : α → α) (P : α → Prop) (hf : ∀ a, P a → P (f a)) :
    ∀ (n : Nat) (a : α), P a → P (f^[n] a) := by
  intro n
  induction n with
  | zero => intro a ha; exact ha
  | succ k ih =>
    intro a ha
    rw [Function.iterate_succ_apply]
    exact ih (f a) (hf a ha)

theorem update_volume_one_unit (s : DashboardRenderer) (now : Int)
    (h : (s.vol_step_to - s.vol_step_from).natAbs ≤ 1) :
    ((s.update_volume_animation now).vol_step_to -
      (s.update_volume_animation now).vol_step_from).natAbs ≤ 1 := by
  unfold DashboardRenderer.update_volume_animation
  cases s.volume_display with
  | none =>
    show (now - now).natAbs ≤ 1
    omega
  | some v =>
    dsimp only
    split_ifs <;> (try dsimp only) <;> omega

theorem advanceVolBody_one_unit (s : DashboardRenderer)
    (h : (s.vol_step_to - s.vol_step_from).natAbs ≤ 1) :
    (s.advanceVolBody.vol_step_to - s.advanceVolBody.vol_step_from).natAbs ≤ 1 := by
  unfold DashboardRenderer.advanceVolBody
  dsimp only
  split_ifs <;> (try dsimp only) <;> omega

/-- C8 as amended: the distance-scaled quantity is the number of
sub-animation FRAME steps advanced per tick, not displayed units. First
conjunct: with the base speed 1 the renderer always uses,
`advance_volume_animation` advances `volSpeed` frame steps per tick, and
`volSpeed` is exactly 1 for distance 0-2, 2 for distance 3-8 and 3
(the cap) beyond 8. Second conjunct: the counter moves one unit at a time -
every reachable `(vol_step_from, vol_step_to)` pair a tick produces stays at
most one unit apart. Third conjunct: within one unit-step (no completion
reached), a tick advances the sub-animation counter by exactly `volSpeed`
frames. -/
theorem volume_speed_amended (s : DashboardRenderer) (t : Int) :
    (s.vol_anim_speed = 1 →
      s.volSpeed =
        (if (s.volume_target - s.volume_display.getD s.volume_target).natAbs ≤ 2 then 1
         else if (s.volume_target - s.volume_display.getD s.volume_target).natAbs ≤ 8 then 2
         else 3)) ∧
    ((s.vol_step_to - s.vol_step_from).natAbs ≤ 1 →
      (((s.volTick t).vol_step_to - (s.volTick t).vol_step_from).natAbs ≤ 1)) ∧
    (s.vol_step_from ≠ s.vol_step_to → s.vol_anim_step + s.volSpeed < s.vol_anim_len →
      s.vol_anim_len ≤ 255 →
      s.advance_volume_animation = { s with vol_anim_step := s.vol_anim_step + s.volSpeed }) := by
  refine ⟨?_, ?_, ?_⟩
  · intro h1
    unfold DashboardRenderer.volSpeed satAdd8 clampN
    rw [h1]
    dsimp only
    split_ifs <;> omega
  · intro h
    unfold DashboardRenderer.volTick DashboardRenderer.advance_volume_animation
    exact iterate_pres DashboardRenderer.advanceVolBody
      (fun a => (a.vol_step_to - a.vol_step_from).natAbs ≤ 1)
      advanceVolBody_one_unit _ _ (update_volume_one_unit s t h)
  · intro h1 h2 h3
    exact advanceVolBody_iter s.volSpeed s h1 h2 h3

theorem volume_speed_amended_witness :
    ((DashboardRenderer.new 8 8).vol_anim_speed = 1 →
      (DashboardRenderer.new 8 8).volSpeed =
        (if ((DashboardRenderer.new 8 8).volume_target -
            (DashboardRenderer.new 8 8).volume_display.getD
              (DashboardRenderer.new 8 8).volume_target).natAbs ≤ 2 then 1
         else if ((DashboardRenderer.new 8 8).volume_target -
            (DashboardRenderer.new 8 8).volume_display.getD
              (DashboardRenderer.new 8 8).volume_target).natAbs ≤ 8 then 2
         else 3)) ∧
    (((DashboardRenderer.new 8 8).vol_step_to -
        (DashboardRenderer.new 8 8).vol_step_from).natAbs ≤ 1 →
      ((((DashboardRenderer.new 8 8).volTick 5).vol_step_to -
        ((DashboardRenderer.new 8 8).volTick 5).vol_step_from).natAbs ≤ 1)) ∧
    ((DashboardRenderer.new 8 8).vol_step_from ≠ (DashboardRenderer.new 8 8).vol_step_to →
      (DashboardRenderer.new 8 8).vol_anim_step + (DashboardRenderer.new 8 8).volSpeed <
        (DashboardRenderer.new 8 8).vol_anim_len →
      (DashboardRenderer.new 8 8).vol_anim_len ≤ 255 →
      (DashboardRenderer.new 8 8).advance_volume_animation =
        { DashboardRenderer.new 8 8 with
            vol_anim_step := (DashboardRenderer.new 8 8).vol_anim_step +
              (DashboardRenderer.new 8 8).volSpeed }) :=
  volume_speed_amended (DashboardRenderer.new 8 8) 5

/-! ## C4: stepped-counter convergence -/


/-- C4: for the volume stepped counter, fed the target sequence
`[0, 47, 47, 3]` with ample ticks between changes (1, 200, 10 and 200 ticks
respectively - comfortably above the frames each leg needs), the displayed
value settles to each target before the next arrives (the repeated 47 is
already settled and stays), and the digits drawn by `volume_digits` always
show a value inside `[0, 100]`: they render the input clamped to that
interval. One `volTick` is the volume-state effect of one `draw_volume`
call. -/
theorem volume_counter_convergence :
    (let s0 := DashboardRenderer.new 8 8
     let s1 := DashboardRenderer.volTick 0 s0
     let s2 := (DashboardRenderer.volTick 47)^[200] s1
     let s3 := (DashboardRenderer.volTick 47)^[10] s2
     let s4 := (DashboardRenderer.volTick 3)^[200] s3
     s1.volume_display = some 0 ∧ s2.volume_display = some 47 ∧
       s3.volume_display = some 47 ∧ s4.volume_display = some 3) ∧
    (∀ v : Int, volume_digits v = volume_digits (clampI v 0 100) ∧
      0 ≤ clampI v 0 100 ∧ clampI v 0 100 ≤ 100) := by
  constructor
  · dsimp only
    have e1 : DashboardRenderer.volTick 0 (DashboardRenderer.new 8 8) = { DashboardRenderer.new 8 8 with volume_display := some 0, volume_target := 0, vol_step_from := 0, vol_step_to := 0, vol_anim_step := 10 } := by decide
    have c1 : (DashboardRenderer.volTick 47)^[25] { DashboardRenderer.new 8 8 with volume_display := some 0, volume_target := 0, vol_step_from := 0, vol_step_to := 0, vol_anim_step := 10 } = { DashboardRenderer.new 8 8 with volume_display := some 7, volume_target := 47, vol_step_from := 7, vol_step_to := 8, vol_anim_step := 5 } := by decide
    have c2 : (DashboardRenderer.volTick 47)^[25] { DashboardRenderer.new 8 8 with volume_display := some 7, volume_target := 47, vol_step_from := 7, vol_step_to := 8, vol_anim_step := 5 } = { DashboardRenderer.new 8 8 with volume_display := some 15, volume_target := 47, vol_step_from := 15, vol_step_to := 16, vol_anim_step := 0 } := by decide
    have c3 : (DashboardRenderer.volTick 47)^[25] { DashboardRenderer.new 8 8 with volume_display := some 15, volume_target := 47, vol_step_from := 15, vol_step_to := 16, vol_anim_step := 0 } = { DashboardRenderer.new 8 8 with volume_display := some 22, volume_target := 47, vol_step_from := 22, vol_step_to := 23, vol_anim_step := 5 } := by decide
    have c4 : (DashboardRenderer.volTick 47)^[25] { DashboardRenderer.new 8 8 with volume_display := some 22, volume_target := 47, vol_step_from := 22, vol_step_to := 23, vol_anim_step := 5 } = { DashboardRenderer.new 8 8 with volume_display := some 30, volume_target := 47, vol_step_from := 30, vol_step_to := 31, vol_anim_step := 0 } := by decide
    have c5 : (DashboardRenderer.volTick 47)^[25] { DashboardRenderer.new 8 8 with volume_display := some 30, volume_target := 47, vol_step_from := 30, vol_step_to := 31, vol_anim_step := 0 } = { DashboardRenderer.new 8 8 with volume_display := some 37, volume_target := 47, vol_step_from := 37, vol_step_to := 38, vol_anim_step := 5 } := by decide
    have c6 : (DashboardRenderer.volTick 47)^[25] { DashboardRenderer.new 8 8 with volume_display := some 37, volume_target := 47, vol_step_from := 37, vol_step_to := 38, vol_anim_step := 5 } = { DashboardRenderer.new 8 8 with volume_display := some 43, volume_target := 47, vol_step_from := 43, vol_step_to := 44, vol_anim_step := 0 } := by decide
    have c7 : (DashboardRenderer.volTick 47)^[25] { DashboardRenderer.new 8 8 with volume_display := some 43, volume_target := 47, vol_step_from := 43, vol_step_to := 44, vol_anim_step := 0 } = { DashboardRenderer.new 8 8 with volume_display := some 46, volume_target := 47, vol_step_from := 46, vol_step_to := 47, vol_anim_step := 5 } := by decide
    have c8 : (DashboardRenderer.volTick 47)^[25] { DashboardRenderer.new 8 8 with volume_display := some 46, volume_target := 47, vol_step_from := 46, vol_step_to := 47, vol_anim_step := 5 } = { DashboardRenderer.new 8 8 with volume_display := some 47, volume_target := 47, vol_step_from := 47, vol_step_to := 47, vol_anim_step := 10 } := by decide
    have efix47 : DashboardRenderer.volTick 47 { DashboardRenderer.new 8 8 with volume_display := some 47, volume_target := 47, vol_step_from := 47, vol_step_to := 47, vol_anim_step := 10 } = { DashboardRenderer.new 8 8 with volume_display := some 47, volume_target := 47, vol_step_from := 47, vol_step_to := 47, vol_anim_step := 10 } := by decide
    have d1 : (DashboardRenderer.volTick 3)^[25] { DashboardRenderer.new 8 8 with volume_display := some 47, volume_target := 47, vol_step_from := 47, vol_step_to := 47, vol_anim_step := 10 } = { DashboardRenderer.new 8 8 with volume_display := some 40, volume_target := 3, vol_step_from := 40, vol_step_to := 39, vol_anim_step := 5 } := by decide
    have d2 : (DashboardRenderer.volTick 3)^[25] { DashboardRenderer.new 8 8 with volume_display := some 40, volume_target := 3, vol_step_from := 40, vol_step_to := 39, vol_anim_step := 5 } = { DashboardRenderer.new 8 8 with volume_display := some 32, volume_target := 3, vol_step_from := 32, vol_step_to := 31, vol_anim_step := 0 } := by decide
    have d3 : (DashboardRenderer.volTick 3)^[25] { DashboardRenderer.new 8 8 with volume_display := some 32, volume_target := 3, vol_step_from := 32, vol_step_to := 31, vol_anim_step := 0 } = { DashboardRenderer.new 8 8 with volume_display := some 25, volume_target := 3, vol_step_from := 25, vol_step_to := 24, vol_anim_step := 5 } := by decide
    have d4 : (DashboardRenderer.volTick 3)^[25] { DashboardRenderer.new 8 8 with volume_display := some 25, volume_target := 3, vol_step_from := 25, vol_step_to := 24, vol_anim_step := 5 } = { DashboardRenderer.new 8 8 with volume_display := some 17, volume_target := 3, vol_step_from := 17, vol_step_to := 16, vol_anim_step := 0 } := by decide
    have d5 : (DashboardRenderer.volTick 3)^[25] { DashboardRenderer.new 8 8 with volume_display := some 17, volume_target := 3, vol_step_from := 17, vol_step_to := 16, vol_anim_step := 0 } = { DashboardRenderer.new 8 8 with volume_display := some 10, volume_target := 3, vol_step_from := 10, vol_step_to := 9, vol_anim_step := 0 } := by decide
    have d6 : (DashboardRenderer.volTick 3)^[25] { DashboardRenderer.new 8 8 with volume_display := some 10, volume_target := 3, vol_step_from := 10, vol_step_to := 9, vol_anim_step := 0 } = { DashboardRenderer.new 8 8 with volume_display := some 5, volume_target := 3, vol_step_from := 5, vol_step_to := 4, vol_anim_step := 0 } := by decide
    have d7 : (DashboardRenderer.volTick 3)^[25] { DashboardRenderer.new 8 8 with volume_display := some 5, volume_target := 3, vol_step_from := 5, vol_step_to := 4, vol_anim_step := 0 } = { DashboardRenderer.new 8 8 with volume_display := some 3, volume_target := 3, vol_step_from := 3, vol_step_to := 3, vol_anim_step := 10 } := by decide
    have efix3 : DashboardRenderer.volTick 3 { DashboardRenderer.new 8 8 with volume_display := some 3, volume_target := 3, vol_step_from := 3, vol_step_to := 3, vol_anim_step := 10 } = { DashboardRenderer.new 8 8 with volume_display := some 3, volume_target := 3, vol_step_from := 3, vol_step_to := 3, vol_anim_step := 10 } := by decide
    have e2 : (DashboardRenderer.volTick 47)^[200] { DashboardRenderer.new 8 8 with volume_display := some 0, volume_target := 0, vol_step_from := 0, vol_step_to := 0, vol_anim_step := 10 } = { DashboardRenderer.new 8 8 with volume_display := some 47, volume_target := 47, vol_step_from := 47, vol_step_to := 47, vol_anim_step := 10 } := by
      rw [show (200 : Nat) = 175 + 25 from rfl,
          Function.iterate_add_apply,
          c1,
          show (175 : Nat) = 150 + 25 from rfl,
          Function.iterate_add_apply,
          c2,
          show (150 : Nat) = 125 + 25 from rfl,
          Function.iterate_add_apply,
          c3,
          show (125 : Nat) = 100 + 25 from rfl,
          Function.iterate_add_apply,
          c4,
          show (100 : Nat) = 75 + 25 from rfl,
          Function.iterate_add_apply,
          c5,
          show (75 : Nat) = 50 + 25 from rfl,
          Function.iterate_add_apply,
          c6,
          show (50 : Nat) = 25 + 25 from rfl,
          Function.iterate_add_apply,
          c7,
          c8]
    have e3 : (DashboardRenderer.volTick 47)^[10] { DashboardRenderer.new 8 8 with volume_display := some 47, volume_target := 47, vol_step_from := 47, vol_step_to := 47, vol_anim_step := 10 } = { DashboardRenderer.new 8 8 with volume_display := some 47, volume_target := 47, vol_step_from := 47, vol_step_to := 47, vol_anim_step := 10 } :=
      Function.iterate_fixed efix47 10
    have e4 : (DashboardRenderer.volTick 3)^[200] { DashboardRenderer.new 8 8 with volume_display := some 47, volume_target := 47, vol_step_from := 47, vol_step_to := 47, vol_anim_step := 10 } = { DashboardRenderer.new 8 8 with volume_display := some 3, volume_target := 3, vol_step_from := 3, vol_step_to := 3, vol_anim_step := 10 } := by
      rw [show (200 : Nat) = 175 + 25 from rfl,
          Function.iterate_add_apply,
          d1,
          show (175 : Nat) = 150 + 25 from rfl,
          Function.iterate_add_apply,
          d2,
          show (150 : Nat) = 125 + 25 from rfl,
          Function.iterate_add_apply,
          d3,
          show (125 : Nat) = 100 + 25 from rfl,
          Function.iterate_add_apply,
          d4,
          show (100 : Nat) = 75 + 25 from rfl,
          Function.iterate_add_apply,
          d5,
          show (75 : Nat) = 50 + 25 from rfl,
          Function.iterate_add_apply,
          d6,
          show (50 : Nat) = 25 + 25 from rfl,
          Function.iterate_add_apply,
          d7]
      exact Function.iterate_fixed efix3 25
    rw [e1, e2, e3, e4]
    exact ⟨by decide, by decide, by decide, by decide⟩
  · intro v
    have hidem : clampI (clampI v 0 100) 0 100 = clampI v 0 100 := by
      unfold clampI
      omega
    refine ⟨?_, by unfold clampI; omega, by unfold clampI; omega⟩
    unfold volume_digits
    rw [hidem]

/-! ## Lock-key field lemmas for C5 and C10 -/

/-- The caps-lock field group. -/
def capsFields (s : DashboardRenderer) : Option Bool × Nat × Nat × Bool × Bool :=
  (s.prev_caps_lock, s.caps_anim_step, s.caps_anim_len, s.caps_anim_from, s.caps_anim_to)

/-- The num-lock field group. -/
def numFields (s : DashboardRenderer) : Option Bool × Nat × Nat × Bool × Bool :=
  (s.prev_num_lock, s.num_anim_step, s.num_anim_len, s.num_anim_from, s.num_anim_to)

/-- The scroll-lock field group. -/
def scrollFields (s : DashboardRenderer) : Option Bool × Nat × Nat × Bool × Bool :=
  (s.prev_scroll_lock, s.scroll_anim_step, s.scroll_anim_len, s.scroll_anim_from,
   s.scroll_anim_to)

theorem capsFields_update_num (s : DashboardRenderer) (now : Bool) :
    capsFields (s.update_numlock_animation now) = capsFields s := by
  unfold DashboardRenderer.update_numlock_animation
  cases s.prev_num_lock with
  | none => rfl
  | some p => dsimp only; split_ifs <;> rfl

theorem capsFields_update_scroll (s : DashboardRenderer) (now : Bool) :
    capsFields (s.update_scrolllock_animation now) = capsFields s := by
  unfold DashboardRenderer.update_scrolllock_animation
  cases s.prev_scroll_lock with
  | none => rfl
  | some p => dsimp only; split_ifs <;> rfl

theorem numFields_update_caps (s : DashboardRenderer) (now : Bool) :
    numFields (s.update_capslock_animation now) = numFields s := by
  unfold DashboardRenderer.update_capslock_animation
  cases s.prev_caps_lock with
  | none => rfl
  | some p => dsimp only; split_ifs <;> rfl

theorem numFields_update_scroll (s : DashboardRenderer) (now : Bool) :
    numFields (s.update_scrolllock_animation now) = numFields s := by
  unfold DashboardRenderer.update_scrolllock_animation
  cases s.prev_scroll_lock with
  | none => rfl
  | some p => dsimp only; split_ifs <;> rfl

theorem scrollFields_update_caps (s : DashboardRenderer) (now : Bool) :
    scrollFields (s.update_capslock_animation now) = scrollFields s := by
  unfold DashboardRenderer.update_capslock_animation
  cases s.prev_caps_lock with
  | none => rfl
  | some p => dsimp only; split_ifs <;> rfl

theorem scrollFields_update_num (s : DashboardRenderer) (now : Bool) :
    scrollFields (s.update_numlock_animation now) = scrollFields s := by
  unfold DashboardRenderer.update_numlock_animation
  cases s.prev_num_lock with
  | none => rfl
  | some p => dsimp only; split_ifs <;> rfl

theorem capsFields_numInc (s : DashboardRenderer) : capsFields s.numInc = capsFields s := by
  unfold DashboardRenderer.numInc
  split_ifs <;> rfl

theorem capsFields_scrollInc (s : DashboardRenderer) : capsFields s.scrollInc = capsFields s := by
  unfold DashboardRenderer.scrollInc
  split_ifs <;> rfl

theorem numFields_capsInc (s : DashboardRenderer) : numFields s.capsInc = numFields s := by
  unfold DashboardRenderer.capsInc
  split_ifs <;> rfl

theorem numFields_scrollInc (s : DashboardRenderer) : numFields s.scrollInc = numFields s := by
  unfold DashboardRenderer.scrollInc
  split_ifs <;> rfl

theorem scrollFields_capsInc (s : DashboardRenderer) : scrollFields s.capsInc = scrollFields s := by
  unfold DashboardRenderer.capsInc
  split_ifs <;> rfl

theorem scrollFields_numInc (s : DashboardRenderer) : scrollFields s.numInc = scrollFields s := by
  unfold DashboardRenderer.numInc
  split_ifs <;> rfl

theorem capsFields_update_caps (s : DashboardRenderer) (b : Bool)
    (h : s.prev_caps_lock = none ∨ s.prev_caps_lock = some b) :
    capsFields (s.update_capslock_animation b) =
      (some b, s.caps_anim_step, s.caps_anim_len, s.caps_anim_from, s.caps_anim_to) := by
  unfold DashboardRenderer.update_capslock_animation
  rcases h with h | h <;> rw [h]
  · rfl
  · dsimp only
    rw [if_neg (by simp)]
    rfl

theorem numFields_update_num (s : DashboardRenderer) (b : Bool)
    (h : s.prev_num_lock = none ∨ s.prev_num_lock = some b) :
    numFields (s.update_numlock_animation b) =
      (some b, s.num_anim_step, s.num_anim_len, s.num_anim_from, s.num_anim_to) := by
  unfold DashboardRenderer.update_numlock_animation
  rcases h with h | h <;> rw [h]
  · rfl
  · dsimp only
    rw [if_neg (by simp)]
    rfl

theorem scrollFields_update_scroll (s : DashboardRenderer) (b : Bool)
    (h : s.prev_scroll_lock = none ∨ s.prev_scroll_lock = some b) :
    scrollFields (s.update_scrolllock_animation b) =
      (some b, s.scroll_anim_step, s.scroll_anim_len, s.scroll_anim_from, s.scroll_anim_to) := by
  unfold DashboardRenderer.update_scrolllock_animation
  rcases h with h | h <;> rw [h]
  · rfl
  · dsimp only
    rw [if_neg (by simp)]
    rfl

theorem capsFields_capsInc (s : DashboardRenderer) :
    capsFields s.capsInc =
      (s.prev_caps_lock,
       (if s.caps_anim_step < s.caps_anim_len then satAdd8 s.caps_anim_step 1
        else s.caps_anim_step),
       s.caps_anim_len, s.caps_anim_from, s.caps_anim_to) := by
  unfold DashboardRenderer.capsInc
  split_ifs <;> rfl

theorem numFields_numInc (s : DashboardRenderer) :
    numFields s.numInc =
      (s.prev_num_lock,
       (if s.num_anim_step < s.num_anim_len then satAdd8 s.num_anim_step 1
        else s.num_anim_step),
       s.num_anim_len, s.num_anim_from, s.num_anim_to) := by
  unfold DashboardRenderer.numInc
  split_ifs <;> rfl

theorem scrollFields_scrollInc (s : DashboardRenderer) :
    scrollFields s.scrollInc =
      (s.prev_scroll_lock,
       (if s.scroll_anim_step < s.scroll_anim_len then satAdd8 s.scroll_anim_step 1
        else s.scroll_anim_step),
       s.scroll_anim_len, s.scroll_anim_from, s.scroll_anim_to) := by
  unfold DashboardRenderer.scrollInc
  split_ifs <;> rfl

/-- Caps-lock fields of the three `update_*` calls at the head of a
keyboard tick. -/
theorem capsFields_kbdUpdates (bc bn bs : Bool) (s : DashboardRenderer)
    (h : s.prev_caps_lock = none ∨ s.prev_caps_lock = some bc) :
    capsFields (DashboardRenderer.kbdUpdates bc bn bs s) =
      (some bc, s.caps_anim_step, s.caps_anim_len, s.caps_anim_from, s.caps_anim_to) := by
  unfold DashboardRenderer.kbdUpdates
  rw [capsFields_update_scroll, capsFields_update_num, capsFields_update_caps s bc h]

/-- Num-lock fields of the three `update_*` calls. -/
theorem numFields_kbdUpdates (bc bn bs : Bool) (s : DashboardRenderer)
    (h : s.prev_num_lock = none ∨ s.prev_num_lock = some bn) :
    numFields (DashboardRenderer.kbdUpdates bc bn bs s) =
      (some bn, s.num_anim_step, s.num_anim_len, s.num_anim_from, s.num_anim_to) := by
  unfold DashboardRenderer.kbdUpdates
  rw [numFields_update_scroll]
  have hp : (s.update_capslock_animation bc).prev_num_lock = none ∨
      (s.update_capslock_animation bc).prev_num_lock = some bn := by
    have := numFields_update_caps s bc
    simp only [numFields, Prod.mk.injEq] at this
    rw [this.1]
    exact h
  rw [numFields_update_num _ bn hp]
  have := numFields_update_caps s bc
  simp only [numFields, Prod.mk.injEq] at this
  rw [this.2.1, this.2.2.1, this.2.2.2.1, this.2.2.2.2]

/-- Scroll-lock fields of the three `update_*` calls. -/
theorem scrollFields_kbdUpdates (bc bn bs : Bool) (s : DashboardRenderer)
    (h : s.prev_scroll_lock = none ∨ s.prev_scroll_lock = some bs) :
    scrollFields (DashboardRenderer.kbdUpdates bc bn bs s) =
      (some bs, s.scroll_anim_step, s.scroll_anim_len, s.scroll_anim_from,
        s.scroll_anim_to) := by
  unfold DashboardRenderer.kbdUpdates
  have h1 := scrollFields_update_caps s bc
  have h2 := scrollFields_update_num (s.update_capslock_animation bc) bn
  have hp : ((s.update_capslock_animation bc).update_numlock_animation bn).prev_scroll_lock =
      none ∨
      ((s.update_capslock_animation bc).update_numlock_animation bn).prev_scroll_lock =
      some bs := by
    simp only [scrollFields, Prod.mk.injEq] at h1 h2
    rw [h2.1, h1.1]
    exact h
  rw [scrollFields_update_scroll _ bs hp]
  simp only [scrollFields, Prod.mk.injEq] at h1 h2
  rw [h2.2.1, h2.2.2.1, h2.2.2.2.1, h2.2.2.2.2, h1.2.1, h1.2.2.1, h1.2.2.2.1, h1.2.2.2.2]

/-- Caps-lock fields after one full keyboard state tick. -/
theorem capsFields_tick (bc bn bs : Bool) (s : DashboardRenderer)
    (h : s.prev_caps_lock = none ∨ s.prev_caps_lock = some bc) :
    capsFields (DashboardRenderer.kbdStateTick bc bn bs s) =
      (some bc,
       (if s.caps_anim_step < s.caps_anim_len then satAdd8 s.caps_anim_step 1
        else s.caps_anim_step),
       s.caps_anim_len, s.caps_anim_from, s.caps_anim_to) := by
  unfold DashboardRenderer.kbdStateTick DashboardRenderer.kbdIncs
  rw [capsFields_scrollInc, capsFields_numInc, capsFields_capsInc]
  have hU := capsFields_kbdUpdates bc bn bs s h
  simp only [capsFields, Prod.mk.injEq] at hU
  rw [hU.1, hU.2.1, hU.2.2.1, hU.2.2.2.1, hU.2.2.2.2]

/-- Num-lock fields after one full keyboard state tick. -/
theorem numFields_tick (bc bn bs : Bool) (s : DashboardRenderer)
    (h : s.prev_num_lock = none ∨ s.prev_num_lock = some bn) :
    numFields (DashboardRenderer.kbdStateTick bc bn bs s) =
      (some bn,
       (if s.num_anim_step < s.num_anim_len then satAdd8 s.num_anim_step 1
        else s.num_anim_step),
       s.num_anim_len, s.num_anim_from, s.num_anim_to) := by
  unfold DashboardRenderer.kbdStateTick DashboardRenderer.kbdIncs
  rw [numFields_scrollInc, numFields_numInc]
  have hX := numFields_capsInc (DashboardRenderer.kbdUpdates bc bn bs s)
  simp only [numFields, Prod.mk.injEq] at hX
  rw [hX.1, hX.2.1, hX.2.2.1, hX.2.2.2.1, hX.2.2.2.2]
  have hU := numFields_kbdUpdates bc bn bs s h
  simp only [numFields, Prod.mk.injEq] at hU
  rw [hU.1, hU.2.1, hU.2.2.1, hU.2.2.2.1, hU.2.2.2.2]

/-- Scroll-lock fields after one full keyboard state tick. -/
theorem scrollFields_tick (bc bn bs : Bool) (s : DashboardRenderer)
    (h : s.prev_scroll_lock = none ∨ s.prev_scroll_lock = some bs) :
    scrollFields (DashboardRenderer.kbdStateTick bc bn bs s) =
      (some bs,
       (if s.scroll_anim_step < s.scroll_anim_len then satAdd8 s.scroll_anim_step 1
        else s.scroll_anim_step),
       s.scroll_anim_len, s.scroll_anim_from, s.scroll_anim_to) := by
  unfold DashboardRenderer.kbdStateTick DashboardRenderer.kbdIncs
  rw [scrollFields_scrollInc]
  have h1 := scrollFields_numInc ((DashboardRenderer.kbdUpdates bc bn bs s).capsInc)
  simp only [scrollFields, Prod.mk.injEq] at h1
  rw [h1.1, h1.2.1, h1.2.2.1, h1.2.2.2.1, h1.2.2.2.2]
  have h2 := scrollFields_capsInc (DashboardRenderer.kbdUpdates bc bn bs s)
  simp only [scrollFields, Prod.mk.injEq] at h2
  rw [h2.1, h2.2.1, h2.2.2.1, h2.2.2.2.1, h2.2.2.2.2]
  have hU := scrollFields_kbdUpdates bc bn bs s h
  simp only [scrollFields, Prod.mk.injEq] at hU
  rw [hU.1, hU.2.1, hU.2.2.1, hU.2.2.2.1, hU.2.2.2.2]

/-! ## C5: toggle transition termination -/

theorem capsFields_iterate (bc bn bs : Bool) (k : Nat) :
    ∀ (s : DashboardRenderer), s.prev_caps_lock = some bc → s.caps_anim_len ≤ 255 →
    ((DashboardRenderer.kbdStateTick bc bn bs)^[k] s).prev_caps_lock = some bc ∧
    ((DashboardRenderer.kbdStateTick bc bn bs)^[k] s).caps_anim_len = s.caps_anim_len ∧
    ((DashboardRenderer.kbdStateTick bc bn bs)^[k] s).caps_anim_from = s.caps_anim_from ∧
    ((DashboardRenderer.kbdStateTick bc bn bs)^[k] s).caps_anim_to = s.caps_anim_to ∧
    min s.caps_anim_len (s.caps_anim_step + k) ≤
      ((DashboardRenderer.kbdStateTick bc bn bs)^[k] s).caps_anim_step := by
  induction k with
  | zero =>
    intro s h1 h2
    exact ⟨h1, rfl, rfl, rfl,
      by show min s.caps_anim_len (s.caps_anim_step + 0) ≤ s.caps_anim_step; omega⟩
  | succ k ih =>
    intro s h1 h2
    rw [Function.iterate_succ_apply]
    have ht := capsFields_tick bc bn bs s (Or.inr h1)
    simp only [capsFields, Prod.mk.injEq] at ht
    have hrec := ih (DashboardRenderer.kbdStateTick bc bn bs s) ht.1
      (by rw [ht.2.2.1]; exact h2)
    refine ⟨hrec.1, by rw [hrec.2.1, ht.2.2.1], by rw [hrec.2.2.1, ht.2.2.2.1],
      by rw [hrec.2.2.2.1, ht.2.2.2.2], ?_⟩
    have hstep := hrec.2.2.2.2
    rw [ht.2.2.1, ht.2.1] at hstep
    have hmono : min s.caps_anim_len (s.caps_anim_step + (k + 1)) ≤
        min s.caps_anim_len
          ((if s.caps_anim_step < s.caps_anim_len then satAdd8 s.caps_anim_step 1
            else s.caps_anim_step) + k) := by
      unfold satAdd8
      split_ifs <;> omega
    omega

theorem scrollFields_iterate (bc bn bs : Bool) (k : Nat) :
    ∀ (s : DashboardRenderer), s.prev_scroll_lock = some bs → s.scroll_anim_len ≤ 255 →
    ((DashboardRenderer.kbdStateTick bc bn bs)^[k] s).prev_scroll_lock = some bs ∧
    ((DashboardRenderer.kbdStateTick bc bn bs)^[k] s).scroll_anim_len = s.scroll_anim_len ∧
    ((DashboardRenderer.kbdStateTick bc bn bs)^[k] s).scroll_anim_from = s.scroll_anim_from ∧
    ((DashboardRenderer.kbdStateTick bc bn bs)^[k] s).scroll_anim_to = s.scroll_anim_to ∧
    min s.scroll_anim_len (s.scroll_anim_step + k) ≤
      ((DashboardRenderer.kbdStateTick bc bn bs)^[k] s).scroll_anim_step := by
  induction k with
  | zero =>
    intro s h1 h2
    exact ⟨h1, rfl, rfl, rfl,
      by show min s.scroll_anim_len (s.scroll_anim_step + 0) ≤ s.scroll_anim_step; omega⟩
  | succ k ih =>
    intro s h1 h2
    rw [Function.iterate_succ_apply]
    have ht := scrollFields_tick bc bn bs s (Or.inr h1)
    simp only [scrollFields, Prod.mk.injEq] at ht
    have hrec := ih (DashboardRenderer.kbdStateTick bc bn bs s) ht.1
      (by rw [ht.2.2.1]; exact h2)
    refine ⟨hrec.1, by rw [hrec.2.1, ht.2.2.1], by rw [hrec.2.2.1, ht.2.2.2.1],
      by rw [hrec.2.2.2.1, ht.2.2.2.2], ?_⟩
    have hstep := hrec.2.2.2.2
    rw [ht.2.2.1, ht.2.1] at hstep
    have hmono : min s.scroll_anim_len (s.scroll_anim_step + (k + 1)) ≤
        min s.scroll_anim_len
          ((if s.scroll_anim_step < s.scroll_anim_len then satAdd8 s.scroll_anim_step 1
            else s.scroll_anim_step) + k) := by
      unfold satAdd8
      split_ifs <;> omega
    omega

/-- Settledness and static rendering of the lock chevrons after enough
unchanged ticks: caps settled after `L` ticks, scroll settled after `M`
ticks, the next draw call's animation argument is `none` for each, and a
`none` animation argument renders exactly the static bitmap of the current
boolean with zero vertical offset. -/
def toggleSettleSpec (s : DashboardRenderer) (b bn bs : Bool) (L M : Nat) : Prop :=
  (((DashboardRenderer.kbdStateTick b bn bs)^[L] s).caps_anim_len ≤
    ((DashboardRenderer.kbdStateTick b bn bs)^[L] s).caps_anim_step) ∧
  (DashboardRenderer.kbdUpdates b bn bs
    ((DashboardRenderer.kbdStateTick b bn bs)^[L] s)).capsAnimOf = none ∧
  (((DashboardRenderer.kbdStateTick b bn bs)^[M] s).scroll_anim_len ≤
    ((DashboardRenderer.kbdStateTick b bn bs)^[M] s).scroll_anim_step) ∧
  (DashboardRenderer.kbdUpdates b bn bs
    ((DashboardRenderer.kbdStateTick b bn bs)^[M] s)).scrollAnimOf = none ∧
  (∀ (c : Canvas) (x y w : Int) (up onv : Bool),
    draw_chevron c x y w up onv none = blitBitmap9 c x (y + 0) (chevron_bitmap up onv))

/-- C5: for a boolean lock toggle whose transition length is `L` (`u8`, so
`L ≤ 255`), after `L` consecutive keyboard ticks during which the signal
does not change (it stays at the already-observed value), the transition is
Settled (`step ≥ len`), the next draw call computes a `None` animation
argument, and `draw_chevron` with `None` plots exactly the static bitmap of
the final boolean - solid when on, outline when off - at zero pixel offset.
Shown simultaneously for the caps-lock (length `L`) and scroll-lock (length
`M`) chevrons; the num-lock padlock is not bitmap-rendered and is covered by
C10's openness analysis. -/
theorem toggle_transition_settles (s : DashboardRenderer) (b bn bs : Bool) (L M : Nat)
    (hc : s.prev_caps_lock = some b) (hlc : s.caps_anim_len = L) (h255c : L ≤ 255)
    (hsc : s.prev_scroll_lock = some bs) (hls : s.scroll_anim_len = M) (h255s : M ≤ 255) :
    toggleSettleSpec s b bn bs L M := by
  have hci := capsFields_iterate b bn bs L s hc (by omega)
  have hsi := scrollFields_iterate b bn bs M s hsc (by omega)
  have hcstep : L ≤ ((DashboardRenderer.kbdStateTick b bn bs)^[L] s).caps_anim_step := by
    have := hci.2.2.2.2
    omega
  have hsstep : M ≤ ((DashboardRenderer.kbdStateTick b bn bs)^[M] s).scroll_anim_step := by
    have := hsi.2.2.2.2
    omega
  refine ⟨by rw [hci.2.1, hlc]; exact hcstep, ?_, by rw [hsi.2.1, hls]; exact hsstep, ?_, ?_⟩
  · have hu := capsFields_kbdUpdates b bn bs _ (Or.inr hci.1)
    simp only [capsFields, Prod.mk.injEq] at hu
    unfold DashboardRenderer.capsAnimOf
    rw [hu.2.1, hu.2.2.1, hci.2.1, hlc]
    rw [if_neg (by omega)]
  · have hu := scrollFields_kbdUpdates b bn bs _ (Or.inr hsi.1)
    simp only [scrollFields, Prod.mk.injEq] at hu
    unfold DashboardRenderer.scrollAnimOf
    rw [hu.2.1, hu.2.2.1, hsi.2.1, hls]
    rw [if_neg (by omega)]
  · intro c x y w up onv
    rfl

theorem toggle_transition_settles_witness :
    ((DashboardRenderer.kbdStateTick true false false
        (DashboardRenderer.new 4 4)).prev_caps_lock = some true ∧
      (DashboardRenderer.kbdStateTick true false false
        (DashboardRenderer.new 4 4)).caps_anim_len = 6 ∧
      (DashboardRenderer.kbdStateTick true false false
        (DashboardRenderer.new 4 4)).prev_scroll_lock = some false ∧
      (DashboardRenderer.kbdStateTick true false false
        (DashboardRenderer.new 4 4)).scroll_anim_len = 6) ∧
    toggleSettleSpec (DashboardRenderer.kbdStateTick true false false
      (DashboardRenderer.new 4 4)) true false false 6 6 :=
  ⟨⟨by decide, by decide, by decide, by decide⟩,
   toggle_transition_settles _ true false false 6 6 (by decide) (by decide) (by decide)
     (by decide) (by decide) (by decide)⟩

/-! ## C10: initial lock-animation state -/

theorem kbd_new_iterate (bc bn bs : Bool) (w h : Nat) : ∀ (k : Nat), k ≤ 6 →
    capsFields ((DashboardRenderer.kbdStateTick bc bn bs)^[k] (DashboardRenderer.new w h)) =
      ((if k = 0 then none else some bc), k, 6, false, false) ∧
    numFields ((DashboardRenderer.kbdStateTick bc bn bs)^[k] (DashboardRenderer.new w h)) =
      ((if k = 0 then none else some bn), k, 6, false, false) ∧
    scrollFields ((DashboardRenderer.kbdStateTick bc bn bs)^[k] (DashboardRenderer.new w h)) =
      ((if k = 0 then none else some bs), k, 6, false, false) := by
  intro k
  induction k with
  | zero => intro _; exact ⟨rfl, rfl, rfl⟩
  | succ k ih =>
    intro hk1
    obtain ⟨hc, hn, hs⟩ := ih (by omega)
    rw [Function.iterate_succ_apply']
    simp only [capsFields, numFields, scrollFields, Prod.mk.injEq] at hc hn hs
    have hstep : (if (k : Nat) < 6 then satAdd8 k 1 else k) = k + 1 := by
      unfold satAdd8
      rw [if_pos (by omega)]
      omega
    have hif : ∀ (x : Bool), (if k + 1 = 0 then (none : Option Bool) else some x) = some x := by
      intro x
      rw [if_neg (by omega)]
    refine ⟨?_, ?_, ?_⟩
    · rw [capsFields_tick bc bn bs _ (by rw [hc.1]; split_ifs <;> simp)]
      rw [hc.2.1, hc.2.2.1, hc.2.2.2.1, hc.2.2.2.2, hstep, hif]
    · rw [numFields_tick bc bn bs _ (by rw [hn.1]; split_ifs <;> simp)]
      rw [hn.2.1, hn.2.2.1, hn.2.2.2.1, hn.2.2.2.2, hstep, hif]
    · rw [scrollFields_tick bc bn bs _ (by rw [hs.1]; split_ifs <;> simp)]
      rw [hs.2.1, hs.2.2.1, hs.2.2.2.1, hs.2.2.2.2, hstep, hif]

/-- A blend between identical endpoint bitmaps is that bitmap, whatever the
progress. -/
theorem chevronBlend_same (up bb : Bool) (step len : Nat) :
    chevronBlend up bb bb step len = chevron_bitmap up bb := by
  unfold chevronBlend
  simp only [ite_self]
  cases up <;> cases bb <;> decide

/-- What the first six keyboard renders after construction show under
unchanged lock signals, and what the seventh shows. `s1 k` is the state the
(k+1)-th draw call reads (after its `update_*` calls): both chevrons carry
the off-to-off initial animation `(false, false, k, 6)`, whose blend is the
outline bitmap shifted DOWN by `round((1 - k/6) * 3) ≥ 1` pixels, and the
padlock shackle openness is 3 (fully open) - all regardless of the actual
`bc`, `bn`, `bs` values. At the seventh render (`k = 6`) the animation
arguments are `none`, the chevrons render the static bitmap of the actual
booleans at zero offset, and the padlock openness reflects the actual
num-lock state. -/
def firstSixSpec (bc bn bs : Bool) (w h k : Nat) : Prop :=
  (DashboardRenderer.kbdUpdates bc bn bs
    ((DashboardRenderer.kbdStateTick bc bn bs)^[k] (DashboardRenderer.new w h))).capsAnimOf =
      some (false, false, k, 6) ∧
  (DashboardRenderer.kbdUpdates bc bn bs
    ((DashboardRenderer.kbdStateTick bc bn bs)^[k] (DashboardRenderer.new w h))).scrollAnimOf =
      some (false, false, k, 6) ∧
  chevronBlend true false false k 6 = chevron_bitmap true false ∧
  chevronBlend false false false k 6 = chevron_bitmap false false ∧
  chevronShift true false k 6 = round ((1 - (k : ℚ) / 6) * 3) ∧
  chevronShift false false k 6 = round ((1 - (k : ℚ) / 6) * 3) ∧
  1 ≤ round ((1 - (k : ℚ) / 6) * 3) ∧
  (DashboardRenderer.kbdUpdates bc bn bs
    ((DashboardRenderer.kbdStateTick bc bn bs)^[k]
      (DashboardRenderer.new w h))).padlockOpenness bn = 3 ∧
  ((DashboardRenderer.kbdUpdates bc bn bs
    ((DashboardRenderer.kbdStateTick bc bn bs)^[6] (DashboardRenderer.new w h))).capsAnimOf =
      none ∧
   (DashboardRenderer.kbdUpdates bc bn bs
    ((DashboardRenderer.kbdStateTick bc bn bs)^[6] (DashboardRenderer.new w h))).scrollAnimOf =
      none ∧
   (DashboardRenderer.kbdUpdates bc bn bs
    ((DashboardRenderer.kbdStateTick bc bn bs)^[6]
      (DashboardRenderer.new w h))).padlockOpenness bn = (if bn then 0 else 3) ∧
   (∀ (c : Canvas) (x y wi : Int) (up onv : Bool),
     draw_chevron c x y wi up onv none = blitBitmap9 c x (y + 0) (chevron_bitmap up onv)))

/-- C10: from construction until the first observed change of a lock signal,
each lock's animation state is `step = 0, length = 6, from = to = off`, so
the first six keyboard renders draw both chevrons as an off-to-off blend -
the outline bitmap shifted down by `round((1 - step/6) * 3)` pixels - and
the num-lock shackle fully open (openness 3), regardless of the snapshot's
lock values; only from the seventh render on do the icons reflect the
snapshot's actual lock state. -/
theorem initial_lock_anim_first_six (bc bn bs : Bool) (w h : Nat) (k : Nat) (hk : k < 6) :
    firstSixSpec bc bn bs w h k := by
  obtain ⟨hc, hn, hs⟩ := kbd_new_iterate bc bn bs w h k (by omega)
  obtain ⟨hc6, hn6, hs6⟩ := kbd_new_iterate bc bn bs w h 6 le_rfl
  simp only [capsFields, numFields, scrollFields, Prod.mk.injEq] at hc hn hs hc6 hn6 hs6
  have hprevc : ((DashboardRenderer.kbdStateTick bc bn bs)^[k]
      (DashboardRenderer.new w h)).prev_caps_lock = none ∨
      ((DashboardRenderer.kbdStateTick bc bn bs)^[k]
      (DashboardRenderer.new w h)).prev_caps_lock = some bc := by
    rw [hc.1]; split_ifs <;> simp
  have hprevn : ((DashboardRenderer.kbdStateTick bc bn bs)^[k]
      (DashboardRenderer.new w h)).prev_num_lock = none ∨
      ((DashboardRenderer.kbdStateTick bc bn bs)^[k]
      (DashboardRenderer.new w h)).prev_num_lock = some bn := by
    rw [hn.1]; split_ifs <;> simp
  have hprevs : ((DashboardRenderer.kbdStateTick bc bn bs)^[k]
      (DashboardRenderer.new w h)).prev_scroll_lock = none ∨
      ((DashboardRenderer.kbdStateTick bc bn bs)^[k]
      (DashboardRenderer.new w h)).prev_scroll_lock = some bs := by
    rw [hs.1]; split_ifs <;> simp
  have hcu := capsFields_kbdUpdates bc bn bs _ hprevc
  have hnu := numFields_kbdUpdates bc bn bs _ hprevn
  have hsu := scrollFields_kbdUpdates bc bn bs _ hprevs
  simp only [capsFields, numFields, scrollFields, Prod.mk.injEq] at hcu hnu hsu
  refine ⟨?_, ?_, ?_, ?_, ?_, ?_, ?_, ?_, ?_, ?_, ?_, ?_⟩
  · unfold DashboardRenderer.capsAnimOf
    rw [hcu.2.1, hcu.2.2.1, hcu.2.2.2.1, hcu.2.2.2.2, hc.2.1, hc.2.2.1, hc.2.2.2.1,
      hc.2.2.2.2, if_pos hk]
  · unfold DashboardRenderer.scrollAnimOf
    rw [hsu.2.1, hsu.2.2.1, hsu.2.2.2.1, hsu.2.2.2.2, hs.2.1, hs.2.2.1, hs.2.2.2.1,
      hs.2.2.2.2, if_pos hk]
  · exact chevronBlend_same true false k 6
  · exact chevronBlend_same false false k 6
  · interval_cases k <;> norm_num [chevronShift, chevronT, clampQ, round_eq]
  · interval_cases k <;> norm_num [chevronShift, chevronT, clampQ, round_eq]
  · interval_cases k <;> norm_num [round_eq]
  · unfold DashboardRenderer.padlockOpenness
    rw [hnu.2.1, hnu.2.2.1, hnu.2.2.2.1, hnu.2.2.2.2, hn.2.1, hn.2.2.1, hn.2.2.2.1,
      hn.2.2.2.2, if_pos hk]
    norm_num [round_eq]
  · have hprevc6 : ((DashboardRenderer.kbdStateTick bc bn bs)^[6]
        (DashboardRenderer.new w h)).prev_caps_lock = none ∨
        ((DashboardRenderer.kbdStateTick bc bn bs)^[6]
        (DashboardRenderer.new w h)).prev_caps_lock = some bc := by
      rw [hc6.1]; simp
    have hcu6 := capsFields_kbdUpdates bc bn bs _ hprevc6
    simp only [capsFields, Prod.mk.injEq] at hcu6
    unfold DashboardRenderer.capsAnimOf
    rw [hcu6.2.1, hcu6.2.2.1, hc6.2.1, hc6.2.2.1, if_neg (by omega)]
  · have hprevs6 : ((DashboardRenderer.kbdStateTick bc bn bs)^[6]
        (DashboardRenderer.new w h)).prev_scroll_lock = none ∨
        ((DashboardRenderer.kbdStateTick bc bn bs)^[6]
        (DashboardRenderer.new w h)).prev_scroll_lock = some bs := by
      rw [hs6.1]; simp
    have hsu6 := scrollFields_kbdUpdates bc bn bs _ hprevs6
    simp only [scrollFields, Prod.mk.injEq] at hsu6
    unfold DashboardRenderer.scrollAnimOf
    rw [hsu6.2.1, hsu6.2.2.1, hs6.2.1, hs6.2.2.1, if_neg (by omega)]
  · have hprevn6 : ((DashboardRenderer.kbdStateTick bc bn bs)^[6]
        (DashboardRenderer.new w h)).prev_num_lock = none ∨
        ((DashboardRenderer.kbdStateTick bc bn bs)^[6]
        (DashboardRenderer.new w h)).prev_num_lock = some bn := by
      rw [hn6.1]; simp
    have hnu6 := numFields_kbdUpdates bc bn bs _ hprevn6
    simp only [numFields, Prod.mk.injEq] at hnu6
    unfold DashboardRenderer.padlockOpenness
    rw [hnu6.2.1, hnu6.2.2.1, hn6.2.1, hn6.2.2.1, if_neg (by omega)]
  · intro c x y wi up onv
    rfl

theorem initial_lock_anim_first_six_witness :
    (2 : Nat) < 6 ∧ firstSixSpec true true false 4 4 2 :=
  ⟨by decide, initial_lock_anim_first_six true true false 4 4 2 (by decide)⟩
